import Mathlib

/-!
# sato-prints: the IPP engine of `airprint_server.go`

A shallow embedding of the IPP request handler of the AirPrint server
(`handleIPPPost`, the four response builders, `parseIPPPrintRequest`), of the
in-memory job registry, of the execution pipeline (`executePrintJob`,
`createTempFile`, `printToSystem`) and of the activation (`Start`,
`registerMDNSService`), together with the properties of the specification that
concern them.

Conventions of the embedding:
* a Go `byte` is `Fin 256`; a `[]byte`, and a Go `string` that is written to
  the wire, is a `List Byte`; the other Go strings (names, states) are `String`s;
* `uint16`/`uint32` values are `Nat`, reduced `% 2^16` / `% 2^32` where Go
  truncates; the Go `int` of `jobCounter` is an `Int` wrapped to 64 bits;
* calls that leave the program (`getLocalIP`, `PrinterManager.GetDefault`,
  `time.Now`, the request body reader, `ioutil.WriteFile`, the print command,
  `zeroconf.Register`) are inputs: their outcomes are arguments of the model;
* requests are handled one after another in `run`; calls of
  `buildPrintJobResponse` that run at the same time are modelled by
  `interleave`, which alternates their statements on the shared server.
-/

set_option maxRecDepth 100000

namespace AirPrint

/-! ## Bytes and text -/

/-- A Go `byte`. -/
abbrev Byte := Fin 256

/-- The conversion `byte(x)` of an unsigned value: the low eight bits. -/
def byte (x : Nat) : Byte := ⟨x % 256, Nat.mod_lt x (by decide)⟩

/-- The conversion `byte(x)` of a signed `int`: the low eight bits of the
two's complement representation. (On an `int`, `x >> k` is the arithmetic
shift `x >>> (k : Nat)`.) -/
def byteOfInt (x : Int) : Byte := ⟨(x % 256).toNat, by omega⟩

/-- The bytes of an ASCII string literal (`[]byte("...")`). -/
def ascii (s : String) : List Byte := s.toList.map (fun c => byte c.toNat)

/-- The decimal digits of `u`, least significant last, as `fmt` writes them for
`%d`: the loop `for u >= 10 { buf = '0' + u%10; u /= 10 }` followed by the
leading digit. The first argument bounds the number of iterations. -/
def fmtDigits : Nat → Nat → List Byte → List Byte
  | 0, u, acc => byte (48 + u % 10) :: acc
  | fuel + 1, u, acc =>
    if 10 ≤ u then fmtDigits fuel (u / 10) (byte (48 + u % 10) :: acc)
    else byte (48 + u) :: acc

/-- The text `fmt.Sprintf("%d", n)` of a Go `int`. -/
def fmtInt (n : Int) : List Byte :=
  if n < 0 then byte 45 :: fmtDigits n.natAbs n.natAbs []
  else fmtDigits n.natAbs n.natAbs []

/-! ## The IPP header -/

/-- Lines 276-278 of `handleIPPPost`: version, operation and request id read
from the first eight bytes of the body (the caller has checked
`len(body) >= 8`). -/
def decodeHeader (body : List Byte) : Nat × Nat × Nat :=
  let version := ((body.getD 0 0).val <<< 8) % 2 ^ 16 ||| (body.getD 1 0).val
  let operation := ((body.getD 2 0).val <<< 8) % 2 ^ 16 ||| (body.getD 3 0).val
  let requestID :=
    ((body.getD 4 0).val <<< 24) % 2 ^ 32 ||| ((body.getD 5 0).val <<< 16) % 2 ^ 32
      ||| ((body.getD 6 0).val <<< 8) % 2 ^ 32 ||| (body.getD 7 0).val
  (version, operation, requestID)

/-! ## Response builders -/

/-- The function `buildGetPrinterAttributesResponse`. `localIP` is the text
`localIP.String()` of the address `getLocalIP` resolved and `port` the field
`a.port`. -/
def buildGetPrinterAttributesResponse (localIP : List Byte) (port : Int)
    (requestID : Nat) : List Byte :=
  let printerURI := ascii "ipp://" ++ localIP ++ ascii ":" ++ fmtInt port ++ ascii "/ipp/print"
  let response : List Byte :=
    [0x01, 0x01, 0x00, 0x00,
     byte (requestID >>> 24), byte (requestID >>> 16), byte (requestID >>> 8), byte requestID,
     0x01]
  -- attributes-charset
  let response := response ++ [0x47, 0x00, 0x12]
  let response := response ++ ascii "attributes-charset"
  let response := response ++ [0x00, 0x05]
  let response := response ++ ascii "utf-8"
  -- attributes-natural-language
  let response := response ++ [0x48, 0x00, 0x1B]
  let response := response ++ ascii "attributes-natural-language"
  let response := response ++ [0x00, 0x05]
  let response := response ++ ascii "en-us"
  -- printer-attributes-tag
  let response := response ++ [0x02]
  -- printer-uri-supported
  let response := response ++ [0x45, 0x00, 0x13]
  let response := response ++ ascii "printer-uri-supported"
  let response := response ++ [byte (printerURI.length >>> 8), byte printerURI.length]
  let response := response ++ printerURI
  -- printer-name
  let printerName := ascii "AirPrint Service"
  let response := response ++ [0x42, 0x00, 0x0C]
  let response := response ++ ascii "printer-name"
  let response := response ++ [byte (printerName.length >>> 8), byte printerName.length]
  let response := response ++ printerName
  -- printer-state (3 = idle)
  let response := response ++ [0x21, 0x00, 0x0D]
  let response := response ++ ascii "printer-state"
  let response := response ++ [0x00, 0x04, 0x00, 0x00, 0x00, 0x03]
  -- printer-state-reasons
  let response := response ++ [0x44, 0x00, 0x15]
  let response := response ++ ascii "printer-state-reasons"
  let response := response ++ [0x00, 0x04]
  let response := response ++ ascii "none"
  -- operations-supported
  let response := response ++ [0x21, 0x00, 0x13]
  let response := response ++ ascii "operations-supported"
  let response := response ++ [0x00, 0x04, 0x00, 0x00, 0x00, 0x02]
  let response := response ++ [0x21, 0x00, 0x00]
  let response := response ++ [0x00, 0x04, 0x00, 0x00, 0x00, 0x04]
  let response := response ++ [0x21, 0x00, 0x00]
  let response := response ++ [0x00, 0x04, 0x00, 0x00, 0x00, 0x0B]
  -- document-format-supported
  let response := response ++ [0x49, 0x00, 0x17]
  let response := response ++ ascii "document-format-supported"
  let response := response ++ [0x00, 0x0F]
  let response := response ++ ascii "application/pdf"
  let response := response ++ [0x49, 0x00, 0x00]
  let response := response ++ [0x00, 0x0A]
  let response := response ++ ascii "image/jpeg"
  let response := response ++ [0x49, 0x00, 0x00]
  let response := response ++ [0x00, 0x09]
  let response := response ++ ascii "image/png"
  -- color-supported
  let response := response ++ [0x22, 0x00, 0x0F]
  let response := response ++ ascii "color-supported"
  let response := response ++ [0x00, 0x01, 0x01]
  -- printer-resolution-supported
  let response := response ++ [0x32, 0x00, 0x1A]
  let response := response ++ ascii "printer-resolution-supported"
  let response := response ++ [0x00, 0x09]
  let response := response ++ [0x00, 0x00, 0x01, 0x2C, 0x00, 0x00, 0x01, 0x2C, 0x03]
  -- end-of-attributes-tag
  let response := response ++ [0x03]
  response

/-- The function `buildValidateJobResponse`. -/
def buildValidateJobResponse (requestID : Nat) : List Byte :=
  [0x01, 0x01, 0x00, 0x00,
   byte (requestID >>> 24), byte (requestID >>> 16), byte (requestID >>> 8), byte requestID,
   0x03]

/-- The function `buildErrorResponse`. -/
def buildErrorResponse (requestID : Nat) (statusCode : Nat) : List Byte :=
  [0x01, 0x01, byte (statusCode >>> 8), byte statusCode,
   byte (requestID >>> 24), byte (requestID >>> 16), byte (requestID >>> 8), byte requestID,
   0x03]

/-! ## Jobs and the server -/

/-- The struct `PrintJob`; `CreatedAt` is the reading of the clock. -/
structure PrintJob where
  ID : Int
  Name : String
  Format : String
  Data : List Byte
  Status : String
  CreatedAt : Int
  PrinterName : String
  deriving DecidableEq, Repr

/-- The struct `AirPrintServer`. The map `jobs` is an association list with at
most one entry per key; the three handles (`server`, `universalServer`,
`httpServer`) are recorded as set or `nil`. The `printerManager` is an outside
collaborator: its answers arrive through `Env`. -/
structure AirPrintServer where
  server : Bool
  universalServer : Bool
  httpServer : Bool
  port : Int
  jobCounter : Int
  jobs : List (Int × PrintJob)
  deriving DecidableEq, Repr

/-- The constructor `NewAirPrintServer`. -/
def NewAirPrintServer : AirPrintServer :=
  { server := false, universalServer := false, httpServer := false,
    port := 8082, jobCounter := 0, jobs := [] }

/-- What the outside world answers while one request is handled: the text
`localIP.String()` of the address found by `getLocalIP` (whose error is
dropped), the result of `printerManager.GetDefault()` (`none` for an error)
and the clock. -/
structure Env where
  localIP : List Byte
  defaultPrinter : Option String
  now : Int
  deriving DecidableEq, Repr

/-- A Go `int` (64 bits) after an arithmetic operation: two's complement
wrap-around. -/
def wrapInt (x : Int) : Int := (x + 2 ^ 63) % 2 ^ 64 - 2 ^ 63

/-- The map assignment `m[k] = v`. -/
def mapInsert (m : List (Int × PrintJob)) (k : Int) (v : PrintJob) : List (Int × PrintJob) :=
  (k, v) :: m.filter (fun e => e.1 ≠ k)

/-- The keys of the registry. -/
def jobIDs (a : AirPrintServer) : List Int := a.jobs.map Prod.fst

/-! ## Parsing a Print-Job request -/

/-- The Go call `strings.Contains(s, sub)` on byte strings. -/
def stringsContains (sub : List Byte) : List Byte → Bool
  | [] => sub.isEmpty
  | b :: s => sub.isPrefixOf (b :: s) || stringsContains sub s

/-- The loop of lines 490-495, started at index `i`: the value `dataStart` has
when the loop ends (`-1` when no marker was met). The first argument bounds the
number of iterations. -/
def scanEndOfAttributes (body : List Byte) : Nat → Nat → Int
  | 0, _ => -1
  | fuel + 1, i =>
    if (i : Int) < (body.length : Int) - 1 then
      if body.getD i 0 = 0x03 then (i : Int) + 1
      else scanEndOfAttributes body fuel (i + 1)
    else -1

/-- The function `parseIPPPrintRequest`: job name, document format and
document data. -/
def parseIPPPrintRequest (body : List Byte) : String × String × List Byte :=
  let jobName := "Untitled"
  let dataStart := scanEndOfAttributes body body.length 8
  let documentData : List Byte :=
    if 0 < dataStart ∧ dataStart < (body.length : Int) then body.drop dataStart.toNat else []
  let documentFormat :=
    if stringsContains (ascii "application/pdf") body then "application/pdf"
    else if stringsContains (ascii "text/plain") body then "text/plain"
    else if stringsContains (ascii "image/jpeg") body then "image/jpeg"
    else if stringsContains (ascii "image/png") body then "image/png"
    else "application/octet-stream"
  (jobName, documentFormat, documentData)

/-- The function `buildPrintJobResponse`: the response and the server after the
job has been registered. The goroutine started for `executePrintJob` runs
later, on its own; see `Event.pipeline`. -/
def buildPrintJobResponse (a : AirPrintServer) (env : Env) (requestID : Nat)
    (requestBody : List Byte) : List Byte × AirPrintServer :=
  let (jobName, documentFormat, documentData) := parseIPPPrintRequest requestBody
  let jobCounter := wrapInt (a.jobCounter + 1)
  let jobID := jobCounter
  let job : PrintJob :=
    { ID := jobID, Name := jobName, Format := documentFormat, Data := documentData,
      Status := "pending", CreatedAt := env.now, PrinterName := "" }
  let job : PrintJob :=
    match env.defaultPrinter with
    | some defaultPrinter => { job with PrinterName := defaultPrinter }
    | none => job
  let a := { a with jobCounter := jobCounter, jobs := mapInsert a.jobs jobID job }
  let response : List Byte :=
    [0x01, 0x01, 0x00, 0x00,
     byte (requestID >>> 24), byte (requestID >>> 16), byte (requestID >>> 8), byte requestID,
     0x02,
     0x21, 0x00, 0x06, byte 'j'.toNat, byte 'o'.toNat, byte 'b'.toNat, byte '-'.toNat,
     byte 'i'.toNat, byte 'd'.toNat,
     0x00, 0x04, byteOfInt (jobID >>> (24 : Nat)), byteOfInt (jobID >>> (16 : Nat)),
     byteOfInt (jobID >>> (8 : Nat)), byteOfInt jobID,
     0x21, 0x00, 0x09, byte 'j'.toNat, byte 'o'.toNat, byte 'b'.toNat, byte '-'.toNat,
     byte 's'.toNat, byte 't'.toNat, byte 'a'.toNat, byte 't'.toNat, byte 'e'.toNat,
     0x00, 0x04, 0x00, 0x00, 0x00, 0x03,
     0x03]
  (response, a)

/-! ## The POST handler -/

/-- One POST request as the handler meets it: the declared `ContentLength`
(`-1` when unknown), the bytes the body reader has at hand for the single
`Read` call, whether that call reports an error, and the largest length
`make` can allocate when the request is handled (never more than the limit of
the run time, less when memory is short). -/
structure Request where
  ContentLength : Int
  stream : List Byte
  readErr : Bool
  allocLimit : Nat
  deriving DecidableEq, Repr

/-- How a handler ends: without an answer, in a run-time panic (or in the fatal
error of a run time that is out of memory); with `http.Error(w, msg, status)`;
or with `w.WriteHeader(status); w.Write(body)`. -/
inductive HTTPResult where
  | panic
  | httpError (status : Nat) (msg : String)
  | written (status : Nat) (body : List Byte)
  deriving DecidableEq, Repr

/-- The call `r.Body.Read(buf)`: at most `len(buf)` bytes of the stream are
copied to the front of the buffer; the count, the error flag and the buffer are
returned. -/
def bodyRead (r : Request) (buf : List Byte) : Nat × Bool × List Byte :=
  let n := min r.stream.length buf.length
  (n, r.readErr, r.stream.take n ++ buf.drop n)

/-- The function `handleIPPPost`. -/
def handleIPPPost (a : AirPrintServer) (env : Env) (r : Request) : HTTPResult × AirPrintServer :=
  -- make([]byte, r.ContentLength) panics on a negative length and does not
  -- return for a length that cannot be allocated
  if r.ContentLength < 0 ∨ (r.allocLimit : Int) < r.ContentLength then (HTTPResult.panic, a) else
  let body : List Byte := List.replicate r.ContentLength.toNat 0
  let (n, err, body) := bodyRead r body
  if err ∧ n = 0 then (HTTPResult.httpError 400 "Failed to read request body", a) else
  let body := body.take n
  if body.length < 8 then (HTTPResult.httpError 400 "Invalid IPP request", a) else
  let (_version, operation, requestID) := decodeHeader body
  if operation = 0x000B then
    (HTTPResult.written 200 (buildGetPrinterAttributesResponse env.localIP a.port requestID), a)
  else if operation = 0x0002 then
    let (response, a) := buildPrintJobResponse a env requestID body
    (HTTPResult.written 200 response, a)
  else if operation = 0x0004 then
    (HTTPResult.written 200 (buildValidateJobResponse requestID), a)
  else
    (HTTPResult.written 200 (buildErrorResponse requestID 0x0500), a)

/-- The bytes the single `Read` call delivers into a buffer of
`ContentLength` bytes. -/
def readBytes (r : Request) : List Byte := r.stream.take r.ContentLength.toNat

/-- The body the handler works on once line 265 has run, `body[:n]`: the bytes
the single `Read` call delivered; `none` when the buffer could not be allocated
and nothing was read. -/
def bodyAsRead (r : Request) : Option (List Byte) :=
  if r.ContentLength < 0 ∨ (r.allocLimit : Int) < r.ContentLength then none
  else some (readBytes r)

/-! ## Runs of the server -/

/-- What changes the server between its creation and now: a POST request that
is handled, a write of `job.Status` by the goroutine `executePrintJob` of a
registered job, or a call of `Start` or `Stop`, which assign the three handles
and nothing else. -/
inductive Event where
  | post (env : Env) (r : Request)
  | pipeline (jobID : Int) (status : String)
  | lifecycle (server universalServer httpServer : Bool)
  deriving DecidableEq, Repr

/-- The write `job.Status = status` through the pointer held in the registry. -/
def setStatus (a : AirPrintServer) (jobID : Int) (status : String) : AirPrintServer :=
  { a with jobs := a.jobs.map (fun e => if e.1 = jobID then (e.1, { e.2 with Status := status }) else e) }

/-- One event applied to the server. -/
def step (a : AirPrintServer) : Event → AirPrintServer
  | Event.post env r => (handleIPPPost a env r).2
  | Event.pipeline jobID status => setStatus a jobID status
  | Event.lifecycle server universalServer httpServer =>
    { a with server := server, universalServer := universalServer, httpServer := httpServer }

/-- The server after the events, handled one after another. -/
def runFrom (a : AirPrintServer) : List Event → AirPrintServer
  | [] => a
  | e :: es => runFrom (step a e) es

/-- The server created by `NewAirPrintServer` after the events. -/
def run (es : List Event) : AirPrintServer := runFrom NewAirPrintServer es

/-- Whether the handler takes the request as a Print-Job: a body of at least 8
bytes was read and its operation code is `0x0002`. -/
def isPrintJob (r : Request) : Bool :=
  match bodyAsRead r with
  | some body => decide (8 ≤ body.length) && (decodeHeader body).2.1 == 0x0002
  | none => false

/-- The number of Print-Job requests among the events: the jobs created. -/
def printJobCount : List Event → Nat
  | [] => 0
  | Event.post _ r :: es => (if isPrintJob r then 1 else 0) + printJobCount es
  | Event.pipeline _ _ :: es => printJobCount es
  | Event.lifecycle _ _ _ :: es => printJobCount es

/-! ## The tag/length/value writer of the specification -/

/-- A two-byte big-endian length or code field. -/
def be16 (n : Nat) : List Byte := [byte (n >>> 8), byte n]

/-- A four-byte big-endian integer field. -/
def be32 (n : Nat) : List Byte := [byte (n >>> 24), byte (n >>> 16), byte (n >>> 8), byte n]

/-- One attribute whose name-length field carries `nameLength`: tag, name
length, name, value length (the number of bytes of the value), value. -/
def tlvAttributeDeclared (tag : Byte) (nameLength : Nat) (name value : List Byte) : List Byte :=
  tag :: (be16 nameLength ++ name ++ be16 value.length ++ value)

/-- One attribute as the specification words it: tag, 2-byte big-endian name
length equal to the number of bytes of the name that follows (0 for a
continuation value, whose name is empty), the name, 2-byte big-endian value
length equal to the number of bytes of the value that follows, the value. -/
def tlvAttribute (tag : Byte) (name value : List Byte) : List Byte :=
  tlvAttributeDeclared tag name.length name value

/-- The Get-Printer-Attributes response laid out attribute by attribute, with
the name-length fields of `printer-uri-supported`, `operations-supported`,
`document-format-supported` and `printer-resolution-supported` left open. -/
def getPrinterAttributesLayout (l₁ l₂ l₃ l₄ : Nat) (localIP : List Byte) (port : Int)
    (requestID : Nat) : List Byte :=
  be16 0x0101 ++ be16 0x0000 ++ be32 requestID
    ++ [0x01]
    ++ tlvAttribute 0x47 (ascii "attributes-charset") (ascii "utf-8")
    ++ tlvAttribute 0x48 (ascii "attributes-natural-language") (ascii "en-us")
    ++ [0x02]
    ++ tlvAttributeDeclared 0x45 l₁ (ascii "printer-uri-supported")
        (ascii "ipp://" ++ localIP ++ ascii ":" ++ fmtInt port ++ ascii "/ipp/print")
    ++ tlvAttribute 0x42 (ascii "printer-name") (ascii "AirPrint Service")
    ++ tlvAttribute 0x21 (ascii "printer-state") (be32 3)
    ++ tlvAttribute 0x44 (ascii "printer-state-reasons") (ascii "none")
    ++ tlvAttributeDeclared 0x21 l₂ (ascii "operations-supported") (be32 0x0002)
    ++ tlvAttribute 0x21 [] (be32 0x0004)
    ++ tlvAttribute 0x21 [] (be32 0x000B)
    ++ tlvAttributeDeclared 0x49 l₃ (ascii "document-format-supported") (ascii "application/pdf")
    ++ tlvAttribute 0x49 [] (ascii "image/jpeg")
    ++ tlvAttribute 0x49 [] (ascii "image/png")
    ++ tlvAttribute 0x22 (ascii "color-supported") [0x01]
    ++ tlvAttributeDeclared 0x32 l₄ (ascii "printer-resolution-supported")
        (be32 300 ++ be32 300 ++ [0x03])
    ++ [0x03]

/-- The Get-Printer-Attributes response of the specification: the
tag/length/value writer over the documented attribute list, every name-length
field being the number of bytes of its name. -/
def tlvGetPrinterAttributes (localIP : List Byte) (port : Int) (requestID : Nat) : List Byte :=
  getPrinterAttributesLayout (ascii "printer-uri-supported").length
    (ascii "operations-supported").length (ascii "document-format-supported").length
    (ascii "printer-resolution-supported").length localIP port requestID

/-- The part of the layout between the header and the value-length field of
`printer-uri-supported`. -/
def layoutBeforeURI (l₁ : Nat) : List Byte :=
  [0x01]
    ++ tlvAttribute 0x47 (ascii "attributes-charset") (ascii "utf-8")
    ++ tlvAttribute 0x48 (ascii "attributes-natural-language") (ascii "en-us")
    ++ [0x02]
    ++ (0x45 :: (be16 l₁ ++ ascii "printer-uri-supported"))

/-- The part of the layout after the value of `printer-uri-supported`. -/
def layoutAfterURI (l₂ l₃ l₄ : Nat) : List Byte :=
  tlvAttribute 0x42 (ascii "printer-name") (ascii "AirPrint Service")
    ++ tlvAttribute 0x21 (ascii "printer-state") (be32 3)
    ++ tlvAttribute 0x44 (ascii "printer-state-reasons") (ascii "none")
    ++ tlvAttributeDeclared 0x21 l₂ (ascii "operations-supported") (be32 0x0002)
    ++ tlvAttribute 0x21 [] (be32 0x0004)
    ++ tlvAttribute 0x21 [] (be32 0x000B)
    ++ tlvAttributeDeclared 0x49 l₃ (ascii "document-format-supported") (ascii "application/pdf")
    ++ tlvAttribute 0x49 [] (ascii "image/jpeg")
    ++ tlvAttribute 0x49 [] (ascii "image/png")
    ++ tlvAttribute 0x22 (ascii "color-supported") [0x01]
    ++ tlvAttributeDeclared 0x32 l₄ (ascii "printer-resolution-supported")
        (be32 300 ++ be32 300 ++ [0x03])
    ++ [0x03]

/-- The text of `printerURI` in `buildGetPrinterAttributesResponse`. -/
def printerURI (localIP : List Byte) (port : Int) : List Byte :=
  ascii "ipp://" ++ localIP ++ ascii ":" ++ fmtInt port ++ ascii "/ipp/print"

/-! ## The execution pipeline -/

/-- The file system as far as the pipeline sees it: the paths that exist,
with their contents. -/
abbrev FileSystem := List (String × List Byte)

/-- Whether a path exists. -/
def fsExists (fs : FileSystem) (path : String) : Bool := fs.any (fun f => f.1 == path)

/-- The file system after `path` has been created or truncated and `data`
written to it. -/
def fsWrite (fs : FileSystem) (path : String) (data : List Byte) : FileSystem :=
  (path, data) :: fs.filter (fun f => f.1 ≠ path)

/-- The file system after `os.Remove(path)`. -/
def fsRemove (fs : FileSystem) (path : String) : FileSystem :=
  fs.filter (fun f => f.1 ≠ path)

/-- How `ioutil.WriteFile` ends: the file is written in full; the call fails
before the file is opened, leaving the file system as it was; or it fails after
the file has been created, leaving what was written so far. -/
inductive WriteOutcome where
  | written
  | failedBeforeCreate
  | failedAfterCreate (content : List Byte)
  deriving DecidableEq, Repr

/-- What the outside world answers while one job is executed: the directory
`os.TempDir()` in the clean form `filepath.Join` gives it, the clock, the
outcome of the temp-file write, the value of `runtime.GOOS` and whether the
print command ends without error. -/
structure ExecEnv where
  tempDir : String
  now : Int
  write : WriteOutcome
  goos : String
  commandOK : Bool
  deriving DecidableEq, Repr

/-- A call that leaves the program while a job is executed. -/
inductive ExecCall where
  | writeFile (path : String) (data : List Byte)
  | command (argv : List String)
  | remove (path : String)
  deriving DecidableEq, Repr

/-- The job while it is executed, with the record of what has happened: the
values assigned to `job.Status`, the calls of `printToSystem` with their
arguments, the calls that left the program, and the file system. -/
structure ExecState where
  job : PrintJob
  statuses : List String
  dispatched : List (String × String)
  calls : List ExecCall
  fs : FileSystem
  deriving DecidableEq, Repr

/-- The assignment `job.Status = status`. -/
def assignStatus (st : ExecState) (status : String) : ExecState :=
  { st with job := { st.job with Status := status }, statuses := st.statuses ++ [status] }

/-- The extension `createTempFile` derives from the document format. -/
def tempFileExt (format : String) : String :=
  if format = "application/pdf" then ".pdf"
  else if format = "text/plain" then ".txt"
  else if format = "image/jpeg" then ".jpg"
  else if format = "image/png" then ".png"
  else ".dat"

/-- The call `filepath.Join(dir, name)` for a directory in clean form and a
plain file name, where the separator is `/`: the two are joined by one
separator, and the root and the current directory take none of their own. -/
def filepathJoin (dir name : String) : String :=
  if dir = "/" then "/" ++ name
  else if dir = "." then name
  else dir ++ "/" ++ name

/-- The path `createTempFile` chooses (lines 565-566): the temporary directory
joined with `airprint_<ID>_<unix time><ext>`. -/
def tempFilePath (env : ExecEnv) (job : PrintJob) : String :=
  filepathJoin env.tempDir ("airprint_" ++ toString job.ID ++ "_" ++ toString env.now
    ++ tempFileExt job.Format)

/-- The function `createTempFile`: the path, or `none` for the error, and the
state after the write. -/
def createTempFile (env : ExecEnv) (st : ExecState) : Option String × ExecState :=
  let tempFile := tempFilePath env st.job
  let st := { st with calls := st.calls ++ [ExecCall.writeFile tempFile st.job.Data] }
  match env.write with
  | WriteOutcome.written => (some tempFile, { st with fs := fsWrite st.fs tempFile st.job.Data })
  | WriteOutcome.failedBeforeCreate => (none, st)
  | WriteOutcome.failedAfterCreate content =>
    (none, { st with fs := fsWrite st.fs tempFile content })

/-- The function `printToSystem`: whether it returns an error, and the state
after the print command, if one was run. -/
def printToSystem (env : ExecEnv) (st : ExecState) (filePath printerName : String) :
    Bool × ExecState :=
  let st := { st with dispatched := st.dispatched ++ [(filePath, printerName)] }
  if env.goos = "darwin" then
    let argv := if printerName ≠ "" then ["lpr", "-P", printerName, filePath] else ["lpr", filePath]
    (!env.commandOK, { st with calls := st.calls ++ [ExecCall.command argv] })
  else if env.goos = "linux" then
    let argv := if printerName ≠ "" then ["lp", "-d", printerName, filePath] else ["lp", filePath]
    (!env.commandOK, { st with calls := st.calls ++ [ExecCall.command argv] })
  else (true, st)

/-- The deferred `os.Remove(tempFile)`, run when `executePrintJob` returns. -/
def deferredRemove (st : ExecState) (tempFile : String) : ExecState :=
  { st with calls := st.calls ++ [ExecCall.remove tempFile], fs := fsRemove st.fs tempFile }

/-- The function `executePrintJob`. -/
def executePrintJob (env : ExecEnv) (fs : FileSystem) (job : PrintJob) : ExecState :=
  let st : ExecState := { job := job, statuses := [], dispatched := [], calls := [], fs := fs }
  let st := assignStatus st "processing"
  match createTempFile env st with
  | (none, st) => assignStatus st "aborted"
  | (some tempFile, st) =>
    let (err, st) := printToSystem env st tempFile st.job.PrinterName
    if err then deferredRemove (assignStatus st "aborted") tempFile
    else deferredRemove (assignStatus st "completed") tempFile

/-- Whether the call of `printToSystem` returns without error. -/
def dispatchOK (env : ExecEnv) : Bool :=
  (env.goos == "darwin" || env.goos == "linux") && env.commandOK

/-! ## Activation and service discovery -/

/-- What the outside world answers while `Start` runs: `getLocalIP` (the text
`localIP.String()` or the error), `printerManager.GetDefault()`, the host name
(`os.Hostname`, whose error is dropped) and the errors of the two calls of
`zeroconf.Register` (`none` for success). -/
structure StartEnv where
  localIP : Except String String
  defaultPrinter : Except String String
  hostname : String
  registerPrimary : Option String
  registerUniversal : Option String

/-- The arguments of one call of `zeroconf.Register`. -/
structure Registration where
  instanceName : String
  service : String
  domain : String
  port : Int
  txt : List String
  deriving DecidableEq, Repr

/-- The function `startHTTPServer`: it installs the handlers, stores the server
in `a.httpServer`, starts `ListenAndServe` in a goroutine of its own (whose
error is only logged) and returns `nil`. -/
def startHTTPServer (a : AirPrintServer) : Option String × AirPrintServer :=
  (none, { a with httpServer := true })

/-- The slice `txtRecords` of `registerMDNSService`. -/
def txtRecords (defaultPrinter localIP : String) (port : Int) : List String :=
  ["txtvers=1",
   "qtotal=1",
   "rp=ipp/print",
   "ty=" ++ defaultPrinter,
   "adminurl=http://" ++ localIP ++ ":" ++ toString port ++ "/",
   "note=",
   "priority=0",
   "product=(" ++ defaultPrinter ++ ")",
   "printer-state=3",
   "printer-type=0x809046",
   "pdl=application/octet-stream,application/pdf,application/postscript,image/urf,image/jpeg,image/png",
   "URF=W8,SRGB24,CP1,RS300-600,V1.4,DM1",
   "UUID=9c85edb1-1234-5678-9abc-123456789abc",
   "Color=T",
   "Duplex=F",
   "Staple=F",
   "Sort=T",
   "Collate=T",
   "Punch=F",
   "Copies=T",
   "Bind=F",
   "PaperMax=legal-A4",
   "Kind=document,photo",
   "PaperCustom=T",
   "air=username,password",
   "mopria-certified=1.3",
   "printer-location=",
   "printer-make-and-model=" ++ defaultPrinter]

/-- The function `registerMDNSService`: the error it returns, the server
after it and the calls of `zeroconf.Register` it made, in order. -/
def registerMDNSService (a : AirPrintServer) (env : StartEnv) :
    Option String × AirPrintServer × List Registration :=
  match env.localIP with
  | Except.error err => (some ("获取本机 IP 失败: " ++ err), a, [])
  | Except.ok localIP =>
    let defaultPrinter :=
      match env.defaultPrinter with
      | Except.ok name => name
      | Except.error _ => "AirPrint Service"
    let serviceName := defaultPrinter ++ " @ " ++ env.hostname
    let txtRecords := txtRecords defaultPrinter localIP a.port
    let primary : Registration := ⟨serviceName, "_ipp._tcp", "local.", a.port, txtRecords⟩
    match env.registerPrimary with
    | some err => (some ("注册 IPP 服务失败: " ++ err), a, [primary])
    | none =>
      let a := { a with server := true }
      let universal : Registration :=
        ⟨serviceName, "_universal._sub._ipp._tcp", "local.", a.port, txtRecords⟩
      match env.registerUniversal with
      | some _ => (none, a, [primary, universal])
      | none => (none, { a with universalServer := true }, [primary, universal])

/-- The function `Start`: the error it returns, the server after it and the
calls of `zeroconf.Register` made. -/
def Start (a : AirPrintServer) (env : StartEnv) :
    Option String × AirPrintServer × List Registration :=
  match startHTTPServer a with
  | (some err, a) => (some ("启动 HTTP 服务器失败: " ++ err), a, [])
  | (none, a) =>
    match registerMDNSService a env with
    | (some err, a, calls) => (some ("注册 mDNS 服务失败: " ++ err), a, calls)
    | (none, a, calls) => (none, a, calls)

/-! ## Handlers that run at the same time -/

/-- The job `buildPrintJobResponse` builds at lines 409-428 for the id it has
taken. -/
def newPrintJob (env : Env) (requestBody : List Byte) (jobID : Int) : PrintJob :=
  let (jobName, documentFormat, documentData) := parseIPPPrintRequest requestBody
  let job : PrintJob :=
    { ID := jobID, Name := jobName, Format := documentFormat, Data := documentData,
      Status := "pending", CreatedAt := env.now, PrinterName := "" }
  match env.defaultPrinter with
  | some defaultPrinter => { job with PrinterName := defaultPrinter }
  | none => job

/-- One call of `buildPrintJobResponse` in progress: its inputs, the number of
its statements on the shared server that have run - `a.jobCounter++` (line
412), `jobID := a.jobCounter` (line 413), `a.jobs[jobID] = job` (line 430) -
and its local variable `jobID`. -/
structure PrintJobCall where
  env : Env
  requestBody : List Byte
  done : Nat
  jobID : Int
  deriving DecidableEq, Repr

/-- A call of `buildPrintJobResponse` that has not yet touched the server. -/
def startPrintJobCall (env : Env) (requestBody : List Byte) : PrintJobCall :=
  { env := env, requestBody := requestBody, done := 0, jobID := 0 }

/-- The next statement of a call, run on the shared server as one step; a call
that has run all three does nothing more. -/
def nextStatement (a : AirPrintServer) (c : PrintJobCall) : AirPrintServer × PrintJobCall :=
  match c.done with
  | 0 => ({ a with jobCounter := wrapInt (a.jobCounter + 1) }, { c with done := 1 })
  | 1 => (a, { c with done := 2, jobID := a.jobCounter })
  | 2 =>
    ({ a with jobs := mapInsert a.jobs c.jobID (newPrintJob c.env c.requestBody c.jobID) },
     { c with done := 3 })
  | _ => (a, c)

/-- The server and the calls after a schedule: each entry names the call, by
its position, whose next statement runs. No lock orders the calls: the struct
`AirPrintServer` has no mutex and the handlers of `net/http` run in goroutines
of their own. -/
def interleave (a : AirPrintServer) (calls : List PrintJobCall) :
    List Nat → AirPrintServer × List PrintJobCall
  | [] => (a, calls)
  | i :: schedule =>
    match calls[i]? with
    | some c => interleave (nextStatement a c).1 (calls.set i (nextStatement a c).2) schedule
    | none => interleave a calls schedule

/-! ## The registry invariant -/

/-- The state of counter and registry after `n` jobs have been created: the
counter is `n`, the keys are exactly `1, ..., n`, each once, and every stored
job carries its key in `ID`. -/
def RegistryInv (a : AirPrintServer) (n : Nat) : Prop :=
  a.jobCounter = (n : Int)
    ∧ (∀ k : Int, k ∈ jobIDs a ↔ 1 ≤ k ∧ k ≤ (n : Int))
    ∧ (jobIDs a).Nodup
    ∧ ∀ e ∈ a.jobs, e.2.ID = e.1

/-! ## Lemmas: header arithmetic and the shape of the handler -/

theorem or16_eq (x y : Nat) (hx : x < 256) (hy : y < 256) :
    (x <<< 8) % 2 ^ 16 ||| y = x * 256 + y := by
  have h1 : (x <<< 8) % 2 ^ 16 = 2 ^ 8 * x := by
    rw [Nat.shiftLeft_eq, Nat.mod_eq_of_lt (by omega)]; omega
  rw [h1, ← Nat.mul_add_lt_is_or (by omega : y < 2 ^ 8)]; omega

theorem or32_eq (a b c d : Nat) (ha : a < 256) (hb : b < 256) (hc : c < 256) (hd : d < 256) :
    (a <<< 24) % 2 ^ 32 ||| (b <<< 16) % 2 ^ 32 ||| (c <<< 8) % 2 ^ 32 ||| d
      = a * 2 ^ 24 + b * 2 ^ 16 + c * 2 ^ 8 + d := by
  have h1 : (a <<< 24) % 2 ^ 32 = 2 ^ 24 * a := by
    rw [Nat.shiftLeft_eq, Nat.mod_eq_of_lt (by omega)]; omega
  have h2 : (b <<< 16) % 2 ^ 32 = b * 2 ^ 16 := by
    rw [Nat.shiftLeft_eq, Nat.mod_eq_of_lt (by omega)]
  have h3 : (c <<< 8) % 2 ^ 32 = c * 2 ^ 8 := by
    rw [Nat.shiftLeft_eq, Nat.mod_eq_of_lt (by omega)]
  rw [h1, h2, h3, ← Nat.mul_add_lt_is_or (by omega : b * 2 ^ 16 < 2 ^ 24)]
  have e1 : 2 ^ 24 * a + b * 2 ^ 16 = 2 ^ 16 * (a * 2 ^ 8 + b) := by omega
  rw [e1, ← Nat.mul_add_lt_is_or (by omega : c * 2 ^ 8 < 2 ^ 16)]
  have e2 : 2 ^ 16 * (a * 2 ^ 8 + b) + c * 2 ^ 8 = 2 ^ 8 * (a * 2 ^ 16 + b * 2 ^ 8 + c) := by omega
  rw [e2, ← Nat.mul_add_lt_is_or (by omega : d < 2 ^ 8)]
  omega

theorem decodeHeader_eq (body : List Byte) :
    decodeHeader body =
      ((body.getD 0 0).val * 256 + (body.getD 1 0).val,
       (body.getD 2 0).val * 256 + (body.getD 3 0).val,
       (body.getD 4 0).val * 2 ^ 24 + (body.getD 5 0).val * 2 ^ 16
         + (body.getD 6 0).val * 2 ^ 8 + (body.getD 7 0).val) := by
  unfold decodeHeader
  simp only []
  rw [or16_eq _ _ (Fin.is_lt _) (Fin.is_lt _), or16_eq _ _ (Fin.is_lt _) (Fin.is_lt _),
    or32_eq _ _ _ _ (Fin.is_lt _) (Fin.is_lt _) (Fin.is_lt _) (Fin.is_lt _)]

theorem be32_decode (r : Nat) (h : r < 2 ^ 32) :
    (byte (r >>> 24)).val * 2 ^ 24 + (byte (r >>> 16)).val * 2 ^ 16
      + (byte (r >>> 8)).val * 2 ^ 8 + (byte r).val = r := by
  simp only [byte, Nat.shiftRight_eq_div_pow]
  omega

theorem bodyRead_take (r : Request) :
    (r.stream.take (min r.stream.length (List.replicate r.ContentLength.toNat (0 : Byte)).length)
        ++ (List.replicate r.ContentLength.toNat (0 : Byte)).drop
            (min r.stream.length (List.replicate r.ContentLength.toNat (0 : Byte)).length)).take
      (min r.stream.length (List.replicate r.ContentLength.toNat (0 : Byte)).length)
      = readBytes r := by
  unfold readBytes
  simp only [List.length_replicate]
  rw [List.take_append_of_le_length (by simp), List.take_take]
  rcases Nat.le_total r.stream.length r.ContentLength.toNat with h | h
  · rw [Nat.min_eq_left h, Nat.min_self, List.take_of_length_le h, List.take_of_length_le (le_refl _)]
  · rw [Nat.min_eq_right h, Nat.min_self]

theorem readBytes_length (r : Request) :
    (readBytes r).length = min r.stream.length r.ContentLength.toNat := by
  unfold readBytes
  rw [List.length_take, Nat.min_comm]

/-- The handler on a request whose allocation succeeds and whose read delivers
at least eight bytes: the dispatch on the operation code. -/
theorem handleIPPPost_dispatch (a : AirPrintServer) (env : Env) (r : Request)
    (h0 : 0 ≤ r.ContentLength) (hlim : r.ContentLength ≤ (r.allocLimit : Int))
    (h8 : 8 ≤ (readBytes r).length) :
    handleIPPPost a env r =
      if (decodeHeader (readBytes r)).2.1 = 0x000B then
        (HTTPResult.written 200 (buildGetPrinterAttributesResponse env.localIP a.port
          (decodeHeader (readBytes r)).2.2), a)
      else if (decodeHeader (readBytes r)).2.1 = 0x0002 then
        (HTTPResult.written 200
          (buildPrintJobResponse a env (decodeHeader (readBytes r)).2.2 (readBytes r)).1,
         (buildPrintJobResponse a env (decodeHeader (readBytes r)).2.2 (readBytes r)).2)
      else if (decodeHeader (readBytes r)).2.1 = 0x0004 then
        (HTTPResult.written 200 (buildValidateJobResponse (decodeHeader (readBytes r)).2.2), a)
      else
        (HTTPResult.written 200 (buildErrorResponse (decodeHeader (readBytes r)).2.2 0x0500), a) := by
  have hlen := readBytes_length r
  have hn : ¬ (min r.stream.length r.ContentLength.toNat = 0) := by omega
  unfold handleIPPPost bodyRead
  simp only [bodyRead_take]
  rw [if_neg (by omega)]
  simp only [List.length_replicate, hn, and_false, if_false]
  rw [if_neg (by omega)]

/-- The handler on a request whose allocation succeeds and whose read delivers
fewer than eight bytes. -/
theorem handleIPPPost_short (a : AirPrintServer) (env : Env) (r : Request)
    (h0 : 0 ≤ r.ContentLength) (hlim : r.ContentLength ≤ (r.allocLimit : Int))
    (h8 : (readBytes r).length < 8) :
    handleIPPPost a env r =
      if r.readErr = true ∧ (readBytes r).length = 0 then
        (HTTPResult.httpError 400 "Failed to read request body", a)
      else (HTTPResult.httpError 400 "Invalid IPP request", a) := by
  have hlen := readBytes_length r
  unfold handleIPPPost bodyRead
  simp only [bodyRead_take]
  rw [if_neg (by omega)]
  simp only [List.length_replicate, hlen]
  split_ifs <;> first | rfl | omega

/-- A body was read exactly when the buffer could be allocated: the declared
length is neither negative nor above what `make` can allocate. -/
theorem bodyAsRead_eq_some (r : Request) (body : List Byte) (hb : bodyAsRead r = some body) :
    (0 ≤ r.ContentLength ∧ r.ContentLength ≤ (r.allocLimit : Int)) ∧ readBytes r = body := by
  unfold bodyAsRead at hb
  split_ifs at hb with h
  exact ⟨by omega, Option.some.inj hb⟩

theorem decodeHeader_take (body : List Byte) : decodeHeader (body.take 8) = decodeHeader body := by
  rw [decodeHeader_eq, decodeHeader_eq]
  simp [List.getD_eq_getElem?_getD, List.getElem?_take]

/-- The first eight bytes of the Get-Printer-Attributes response. -/
theorem getPrinterAttributes_take8 (localIP : List Byte) (port : Int) (requestID : Nat) :
    (buildGetPrinterAttributesResponse localIP port requestID).take 8 =
      [0x01, 0x01, 0x00, 0x00, byte (requestID >>> 24), byte (requestID >>> 16),
       byte (requestID >>> 8), byte requestID] := by
  simp [buildGetPrinterAttributesResponse]

/-! ## The IPP header: decode and round trip -/

/-- C1: for every POST body of at least 8 bytes the header decode of
`handleIPPPost` is big-endian: version = body[0]*256 + body[1], operation =
body[2]*256 + body[3], request id = body[4]*2^24 + body[5]*2^16 + body[6]*2^8 +
body[7], and no byte after the first eight influences them; the bytes
01 01 00 0B 00 00 00 2A decode to operation 0x000B and request id 42, and the
handler answers every request whose body as read starts with them by HTTP 200
and a response that begins with 01 01 00 00 00 00 00 2A. -/
theorem header_decode_big_endian (body : List Byte) (h : 8 ≤ body.length) :
    decodeHeader body =
        (body[0].val * 256 + body[1].val,
         body[2].val * 256 + body[3].val,
         body[4].val * 2 ^ 24 + body[5].val * 2 ^ 16 + body[6].val * 2 ^ 8 + body[7].val)
      ∧ (∀ body' : List Byte, body'.take 8 = body.take 8 → decodeHeader body' = decodeHeader body)
      ∧ decodeHeader [0x01, 0x01, 0x00, 0x0B, 0x00, 0x00, 0x00, 0x2A] = (0x0101, 0x000B, 42)
      ∧ ∀ (a : AirPrintServer) (env : Env) (r : Request) (rest : List Byte),
          bodyAsRead r = some ([0x01, 0x01, 0x00, 0x0B, 0x00, 0x00, 0x00, 0x2A] ++ rest) →
          ∃ response, (handleIPPPost a env r).1 = HTTPResult.written 200 response
            ∧ response.take 8 = [0x01, 0x01, 0x00, 0x00, 0x00, 0x00, 0x00, 0x2A] := by
  refine ⟨?_, ?_, by decide, ?_⟩
  · rw [decodeHeader_eq]
    simp only [List.getD_eq_getElem (l := body) (d := 0) (by omega : 0 < body.length),
      List.getD_eq_getElem (l := body) (d := 0) (by omega : 1 < body.length),
      List.getD_eq_getElem (l := body) (d := 0) (by omega : 2 < body.length),
      List.getD_eq_getElem (l := body) (d := 0) (by omega : 3 < body.length),
      List.getD_eq_getElem (l := body) (d := 0) (by omega : 4 < body.length),
      List.getD_eq_getElem (l := body) (d := 0) (by omega : 5 < body.length),
      List.getD_eq_getElem (l := body) (d := 0) (by omega : 6 < body.length),
      List.getD_eq_getElem (l := body) (d := 0) (by omega : 7 < body.length)]
  · intro body' hb
    rw [← decodeHeader_take body', hb, decodeHeader_take]
  · intro a env r rest hsome
    obtain ⟨⟨h0, hlim⟩, hb⟩ := bodyAsRead_eq_some r _ hsome
    have h8 : 8 ≤ (readBytes r).length := by rw [hb]; simp
    have hd : decodeHeader (readBytes r) = (0x0101, 0x000B, 42) := by
      rw [← decodeHeader_take, hb]
      have ht : ([0x01, 0x01, 0x00, 0x0B, 0x00, 0x00, 0x00, 0x2A] ++ rest : List Byte).take 8
          = [0x01, 0x01, 0x00, 0x0B, 0x00, 0x00, 0x00, 0x2A] := rfl
      rw [ht]; decide
    rw [handleIPPPost_dispatch a env r h0 hlim h8, hd]
    refine ⟨_, rfl, ?_⟩
    rw [getPrinterAttributes_take8]
    decide

/-- A body of eight header bytes and a payload, read in full. -/
theorem header_decode_big_endian_witness :
    8 ≤ ([0x01, 0x01, 0x00, 0x02, 0x12, 0x34, 0x56, 0x78, 0x03, 0x41] : List Byte).length
      ∧ decodeHeader [0x01, 0x01, 0x00, 0x02, 0x12, 0x34, 0x56, 0x78, 0x03, 0x41]
          = (0x0101, 0x0002, 0x12345678) := by
  refine ⟨by decide, ?_⟩
  rw [(header_decode_big_endian [0x01, 0x01, 0x00, 0x02, 0x12, 0x34, 0x56, 0x78, 0x03, 0x41]
    (by decide)).1]
  decide

/-- C2: header round trip. For every 32-bit request id the request-header
decode of `handleIPPPost`, applied to the first 8 bytes of the
Get-Printer-Attributes, Print-Job and Validate-Job responses, gives version
0x0101, code 0x0000 and the request id; applied to the error response with a
16-bit status it gives version 0x0101, that status and the request id. -/
theorem header_round_trip (r : Nat) (hr : r < 2 ^ 32) :
    (∀ (localIP : List Byte) (port : Int),
        decodeHeader ((buildGetPrinterAttributesResponse localIP port r).take 8) = (0x0101, 0x0000, r))
      ∧ (∀ (a : AirPrintServer) (env : Env) (body : List Byte),
        decodeHeader ((buildPrintJobResponse a env r body).1.take 8) = (0x0101, 0x0000, r))
      ∧ decodeHeader ((buildValidateJobResponse r).take 8) = (0x0101, 0x0000, r)
      ∧ ∀ s : Nat, s < 2 ^ 16 →
        decodeHeader ((buildErrorResponse r s).take 8) = (0x0101, s, r) := by
  have hbe := be32_decode r hr
  refine ⟨?_, ?_, ?_, ?_⟩
  · intro localIP port
    rw [getPrinterAttributes_take8, decodeHeader_eq]
    simp only [List.getD_cons_zero, List.getD_cons_succ, hbe]
    rfl
  · intro a env body
    rw [decodeHeader_eq]
    simp only [buildPrintJobResponse, List.take_succ_cons, List.take_zero, List.getD_cons_zero,
      List.getD_cons_succ, hbe]
    rfl
  · rw [decodeHeader_eq]
    simp only [buildValidateJobResponse, List.take_succ_cons, List.take_zero, List.getD_cons_zero,
      List.getD_cons_succ, hbe]
    rfl
  · intro s hs
    have h16 : (byte (s >>> 8)).val * 256 + (byte s).val = s := by
      simp only [byte, Nat.shiftRight_eq_div_pow]; omega
    rw [decodeHeader_eq]
    simp only [buildErrorResponse, List.take_succ_cons, List.take_zero, List.getD_cons_zero,
      List.getD_cons_succ, hbe, h16]
    rfl

/-- Request id 42, status 0x0500. -/
theorem header_round_trip_witness :
    (42 : Nat) < 2 ^ 32
      ∧ decodeHeader ((buildValidateJobResponse 42).take 8) = (0x0101, 0x0000, 42)
      ∧ decodeHeader ((buildErrorResponse 42 0x0500).take 8) = (0x0101, 0x0500, 42) :=
  ⟨by decide, (header_round_trip 42 (by decide)).2.2.1,
    (header_round_trip 42 (by decide)).2.2.2 0x0500 (by decide)⟩

/-! ## The Get-Printer-Attributes response -/

/-- The response the code writes is the attribute layout with the four open
name-length fields set to 19, 19, 23 and 26. -/
theorem getPrinterAttributes_layout (localIP : List Byte) (port : Int) (requestID : Nat) :
    buildGetPrinterAttributesResponse localIP port requestID
      = getPrinterAttributesLayout 0x13 0x13 0x17 0x1A localIP port requestID := by
  simp [buildGetPrinterAttributesResponse, getPrinterAttributesLayout, tlvAttribute,
    tlvAttributeDeclared, be16, be32, ascii, byte]

/-- The name-length field of `printer-uri-supported` sits at offsets 76-77. -/
theorem layout_uri_name_length (l₁ l₂ l₃ l₄ : Nat) (localIP : List Byte) (port : Int)
    (requestID : Nat) :
    ((getPrinterAttributesLayout l₁ l₂ l₃ l₄ localIP port requestID).drop 75).take 3
      = 0x45 :: be16 l₁ := by
  simp [getPrinterAttributesLayout, tlvAttribute, tlvAttributeDeclared, be16, be32, ascii, byte]

/-- C3, as the code has it: for every request id, address text and port the
response of `buildGetPrinterAttributesResponse` is the documented attribute
list written tag/length/value, except that four name-length fields do not
equal the number of bytes of the name that follows: `printer-uri-supported`
(21 bytes) is announced as 19, `operations-supported` (20) as 19,
`document-format-supported` (25) as 23 and `printer-resolution-supported` (28)
as 26; so the response is never the output of the tag/length/value writer. -/
theorem getPrinterAttributes_name_lengths_off (localIP : List Byte) (port : Int)
    (requestID : Nat) :
    buildGetPrinterAttributesResponse localIP port requestID
        = getPrinterAttributesLayout 19 19 23 26 localIP port requestID
      ∧ tlvGetPrinterAttributes localIP port requestID
        = getPrinterAttributesLayout 21 20 25 28 localIP port requestID
      ∧ ((buildGetPrinterAttributesResponse localIP port requestID).drop 75).take 3
        = [0x45, 0x00, 0x13]
      ∧ ((tlvGetPrinterAttributes localIP port requestID).drop 75).take 3
        = [0x45, 0x00, 0x15]
      ∧ buildGetPrinterAttributesResponse localIP port requestID
        ≠ tlvGetPrinterAttributes localIP port requestID := by
  have hcode := getPrinterAttributes_layout localIP port requestID
  have hspec : tlvGetPrinterAttributes localIP port requestID
      = getPrinterAttributesLayout 21 20 25 28 localIP port requestID := by
    have hl : (ascii "printer-uri-supported").length = 21
        ∧ (ascii "operations-supported").length = 20
        ∧ (ascii "document-format-supported").length = 25
        ∧ (ascii "printer-resolution-supported").length = 28 := by decide
    unfold tlvGetPrinterAttributes
    rw [hl.1, hl.2.1, hl.2.2.1, hl.2.2.2]
  have h1 : ((buildGetPrinterAttributesResponse localIP port requestID).drop 75).take 3
      = [0x45, 0x00, 0x13] := by
    rw [hcode, layout_uri_name_length]; decide
  have h2 : ((tlvGetPrinterAttributes localIP port requestID).drop 75).take 3
      = [0x45, 0x00, 0x15] := by
    rw [hspec, layout_uri_name_length]; decide
  refine ⟨hcode, hspec, h1, h2, ?_⟩
  intro heq
  rw [heq, h2] at h1
  exact absurd h1 (by decide)

/-! ## The scan for the end-of-attributes marker -/

/-- The loop returns `k + 1` for the first marker `k` it can see, given enough
iterations. -/
theorem scan_first (body : List Byte) (fuel i k : Nat) (hik : i ≤ k)
    (hk : k + 1 < body.length) (h3 : body.getD k 0 = 0x03)
    (hmin : ∀ j, i ≤ j → j < k → body.getD j 0 ≠ 0x03) (hfuel : k - i < fuel) :
    scanEndOfAttributes body fuel i = (k : Int) + 1 := by
  induction fuel generalizing i with
  | zero => omega
  | succ n ih =>
    unfold scanEndOfAttributes
    rw [if_pos (by omega)]
    by_cases hi : body.getD i 0 = 0x03
    · rw [if_pos hi]
      have : i = k := by
        by_contra hne
        exact hmin i (le_refl _) (by omega) hi
      rw [this]
    · rw [if_neg hi]
      have hne : i ≠ k := fun h => hi (h ▸ h3)
      exact ih (i + 1) (by omega) (fun j h1 h2 => hmin j (by omega) h2) (by omega)

/-- The loop returns `-1` when no byte it can see is a marker. -/
theorem scan_none (body : List Byte) (fuel i : Nat)
    (hno : ∀ j, i ≤ j → j + 1 < body.length → body.getD j 0 ≠ 0x03) :
    scanEndOfAttributes body fuel i = -1 := by
  induction fuel generalizing i with
  | zero => rfl
  | succ n ih =>
    unfold scanEndOfAttributes
    split_ifs with h1 h2
    · exact absurd h2 (hno i (le_refl _) (by omega))
    · exact ih (i + 1) (fun j h1 h2 => hno j (by omega) h2)
    · rfl

/-- The document data in terms of the value the loop leaves in `dataStart`. -/
theorem parse_data_eq (body : List Byte) :
    (parseIPPPrintRequest body).2.2 =
      if 0 < scanEndOfAttributes body body.length 8
          ∧ scanEndOfAttributes body body.length 8 < (body.length : Int)
      then body.drop (scanEndOfAttributes body body.length 8).toNat else [] := rfl

/-- The document data when the first marker from offset 8 is at `k`. -/
theorem parse_data_first (body : List Byte) (k : Nat) (h8 : 8 ≤ k) (hk : k < body.length)
    (h3 : body.getD k 0 = 0x03) (hmin : ∀ j, 8 ≤ j → j < k → body.getD j 0 ≠ 0x03) :
    (parseIPPPrintRequest body).2.2 = body.drop (k + 1) := by
  rw [parse_data_eq]
  by_cases hlast : k + 1 < body.length
  · rw [scan_first body body.length 8 k h8 hlast h3 hmin (by omega)]
    rw [if_pos (by omega)]
    congr 1
  · have hno : ∀ j, 8 ≤ j → j + 1 < body.length → body.getD j 0 ≠ 0x03 :=
      fun j h1 h2 => hmin j h1 (by omega)
    rw [scan_none body body.length 8 hno, if_neg (by omega), List.drop_of_length_le (by omega)]

/-- The document data when no byte from offset 8 on is a marker. -/
theorem parse_data_none (body : List Byte)
    (hno : ∀ j, 8 ≤ j → j < body.length → body.getD j 0 ≠ 0x03) :
    (parseIPPPrintRequest body).2.2 = [] := by
  rw [parse_data_eq, scan_none body body.length 8 (fun j h1 h2 => hno j h1 (by omega))]
  rw [if_neg (by omega)]

/-- A marker at an offset from 8 on that is not the last byte makes the
document data non-empty. -/
theorem parse_data_ne_nil (body : List Byte) (k : Nat) (h8 : 8 ≤ k) (hk : k + 1 < body.length)
    (h3 : body.getD k 0 = 0x03) : (parseIPPPrintRequest body).2.2 ≠ [] := by
  have hex : ∃ m, 8 ≤ m ∧ body.getD m 0 = 0x03 := ⟨k, h8, h3⟩
  classical
  have hspec := Nat.find_spec hex
  have hle : Nat.find hex ≤ k := Nat.find_min' hex ⟨h8, h3⟩
  have hmin : ∀ j, 8 ≤ j → j < Nat.find hex → body.getD j 0 ≠ 0x03 :=
    fun j h1 h2 h => Nat.find_min hex h2 ⟨h1, h⟩
  rw [parse_data_first body (Nat.find hex) hspec.1 (by omega) hspec.2 hmin]
  intro hnil
  have := congrArg List.length hnil
  simp only [List.length_drop, List.length_nil] at this
  omega

theorem getD_marker_iff (body : List Byte) (k : Nat) (hk : k < body.length) :
    body.getD k 0 = 0x03 ↔ body[k]? = some 0x03 := by
  rw [List.getD_eq_getElem?_getD, List.getElem?_eq_getElem hk]
  simp

/-- The document data depends on the bytes after the eight header bytes only. -/
theorem parse_data_header_irrelevant (hdr hdr' rest : List Byte) (h : hdr.length = 8)
    (h' : hdr'.length = 8) :
    (parseIPPPrintRequest (hdr ++ rest)).2.2 = (parseIPPPrintRequest (hdr' ++ rest)).2.2 := by
  have key : ∀ hd : List Byte, hd.length = 8 → ∀ j, (hd ++ rest).getD (8 + j) 0 = rest.getD j 0 := by
    intro hd hhd j
    rw [List.getD_append_right _ _ _ _ (by omega), hhd]
    congr 1
    omega
  by_cases hex : ∃ m, rest.getD m 0 = 0x03 ∧ m < rest.length
  · classical
    have hspec := Nat.find_spec hex
    have hmin : ∀ hd : List Byte, hd.length = 8 →
        ∀ j, 8 ≤ j → j < 8 + Nat.find hex → (hd ++ rest).getD j 0 ≠ 0x03 := by
      intro hd hhd j h1 h2 hj
      obtain ⟨d, rfl⟩ := Nat.exists_eq_add_of_le h1
      rw [key hd hhd] at hj
      exact Nat.find_min hex (by omega : d < Nat.find hex) ⟨hj, by omega⟩
    rw [parse_data_first (hdr ++ rest) (8 + Nat.find hex) (by omega)
        (by rw [List.length_append]; omega) (by rw [key hdr h]; exact hspec.1) (hmin hdr h),
      parse_data_first (hdr' ++ rest) (8 + Nat.find hex) (by omega)
        (by rw [List.length_append]; omega) (by rw [key hdr' h']; exact hspec.1) (hmin hdr' h')]
    rw [List.drop_append_eq_append_drop, List.drop_append_eq_append_drop,
      List.drop_of_length_le (by omega : hdr.length ≤ 8 + Nat.find hex + 1),
      List.drop_of_length_le (by omega : hdr'.length ≤ 8 + Nat.find hex + 1), h, h']
  · have hno : ∀ hd : List Byte, hd.length = 8 →
        ∀ j, 8 ≤ j → j < (hd ++ rest).length → (hd ++ rest).getD j 0 ≠ 0x03 := by
      intro hd hhd j h1 h2 hj
      obtain ⟨d, rfl⟩ := Nat.exists_eq_add_of_le h1
      rw [key hd hhd] at hj
      rw [List.length_append] at h2
      exact hex ⟨d, hj, by omega⟩
    rw [parse_data_none _ (hno hdr h), parse_data_none _ (hno hdr' h')]

/-! ## The document data of a Print-Job request -/

/-- C10: for every request body the document data returned by
`parseIPPPrintRequest` is exactly the bytes that follow the first byte equal
to 0x03 at an offset >= 8 (all of them, possibly none), and is empty when no
byte at an offset >= 8 equals 0x03; a marker that is the very last byte gives
the empty data, as the definition does; and bytes 0..7 are never taken as the
marker: two bodies that differ in their first eight bytes only give the same
data. -/
theorem document_data_after_first_marker (body : List Byte) :
    (∀ k, 8 ≤ k → k < body.length → body[k]? = some 0x03 →
        (∀ j, 8 ≤ j → j < k → body[j]? ≠ some 0x03) →
        (parseIPPPrintRequest body).2.2 = body.drop (k + 1))
      ∧ ((∀ j, 8 ≤ j → body[j]? ≠ some 0x03) → (parseIPPPrintRequest body).2.2 = [])
      ∧ (∀ k, 8 ≤ k → k + 1 = body.length → body[k]? = some 0x03 →
          (∀ j, 8 ≤ j → j < k → body[j]? ≠ some 0x03) →
          (parseIPPPrintRequest body).2.2 = [])
      ∧ (∀ hdr hdr' rest : List Byte, hdr.length = 8 → hdr'.length = 8 → body = hdr ++ rest →
          (parseIPPPrintRequest (hdr' ++ rest)).2.2 = (parseIPPPrintRequest body).2.2) := by
  have first : ∀ k, 8 ≤ k → k < body.length → body[k]? = some 0x03 →
      (∀ j, 8 ≤ j → j < k → body[j]? ≠ some 0x03) →
      (parseIPPPrintRequest body).2.2 = body.drop (k + 1) := by
    intro k h8 hk h3 hmin
    refine parse_data_first body k h8 hk ((getD_marker_iff body k hk).2 h3) ?_
    intro j h1 h2 hj
    exact hmin j h1 h2 ((getD_marker_iff body j (by omega)).1 hj)
  refine ⟨first, ?_, ?_, ?_⟩
  · intro hno
    refine parse_data_none body ?_
    intro j h1 h2 hj
    exact hno j h1 ((getD_marker_iff body j h2).1 hj)
  · intro k h8 hk h3 hmin
    rw [first k h8 (by omega) h3 hmin, List.drop_of_length_le (by omega)]
  · intro hdr hdr' rest h h' hb
    rw [hb]
    exact parse_data_header_irrelevant hdr' hdr rest h' h

/-- A body with 0x03 among its header bytes and its first marker at offset 9. -/
theorem document_data_after_first_marker_witness :
    (parseIPPPrintRequest [0x03, 0x01, 0x00, 0x02, 0x00, 0x00, 0x00, 0x03, 0x47, 0x03, 0x25,
        0x03]).2.2 = [0x25, 0x03] :=
  (document_data_after_first_marker [0x03, 0x01, 0x00, 0x02, 0x00, 0x00, 0x00, 0x03, 0x47, 0x03,
      0x25, 0x03]).1 9 (by decide) (by decide) (by decide)
    (fun j h1 h2 => by
      have hj : j = 8 := by omega
      subst hj
      decide)

/-- Every byte `fmtDigits` adds is a decimal digit. -/
theorem fmtDigits_mem (fuel u : Nat) (acc : List Byte) (b : Byte)
    (hb : b ∈ fmtDigits fuel u acc) : b ∈ acc ∨ (48 ≤ b.val ∧ b.val ≤ 57) := by
  induction fuel generalizing u acc with
  | zero =>
    simp only [fmtDigits, List.mem_cons] at hb
    rcases hb with rfl | hb
    · right; simp only [byte]; omega
    · exact Or.inl hb
  | succ n ih =>
    simp only [fmtDigits] at hb
    split_ifs at hb with h10
    · rcases ih _ _ hb with h | h
      · simp only [List.mem_cons] at h
        rcases h with rfl | h
        · right; simp only [byte]; omega
        · exact Or.inl h
      · exact Or.inr h
    · simp only [List.mem_cons] at hb
      rcases hb with rfl | hb
      · right; simp only [byte]; omega
      · exact Or.inl hb

/-- The text of `%d` holds no byte below `'-'`: no `0x02` and no `0x03`. -/
theorem fmtInt_count (port : Int) (b : Byte) (hb : b.val < 45) : List.count b (fmtInt port) = 0 := by
  rw [List.count_eq_zero]
  intro hmem
  unfold fmtInt at hmem
  split_ifs at hmem
  · simp only [List.mem_cons] at hmem
    rcases hmem with rfl | hmem
    · exact absurd hb (by decide)
    · rcases fmtDigits_mem _ _ _ _ hmem with h | h
      · simp at h
      · omega
  · rcases fmtDigits_mem _ _ _ _ hmem with h | h
    · simp at h
    · omega

/-- The layout cut at the value of `printer-uri-supported`. -/
theorem layout_split (l₁ l₂ l₃ l₄ : Nat) (localIP : List Byte) (port : Int) (requestID : Nat) :
    getPrinterAttributesLayout l₁ l₂ l₃ l₄ localIP port requestID
      = (be16 0x0101 ++ be16 0x0000 ++ be32 requestID)
        ++ (layoutBeforeURI l₁
          ++ (be16 (printerURI localIP port).length
            ++ (printerURI localIP port ++ layoutAfterURI l₂ l₃ l₄))) := by
  simp only [getPrinterAttributesLayout, layoutBeforeURI, layoutAfterURI, printerURI,
    tlvAttributeDeclared, List.append_assoc, List.cons_append, List.nil_append]

theorem response_split (localIP : List Byte) (port : Int) (requestID : Nat) :
    buildGetPrinterAttributesResponse localIP port requestID
      = (be16 0x0101 ++ be16 0x0000 ++ be32 requestID)
        ++ (layoutBeforeURI 19
          ++ (be16 (printerURI localIP port).length
            ++ (printerURI localIP port ++ layoutAfterURI 19 23 26))) := by
  rw [getPrinterAttributes_layout, layout_split]

theorem printerURI_count (localIP : List Byte) (port : Int) (b : Byte) (hb : b.val < 45) :
    List.count b (printerURI localIP port) = List.count b localIP := by
  have h1 : ∀ c ∈ ascii "ipp://", 45 ≤ c.val := by decide
  have h2 : ∀ c ∈ ascii ":", 45 ≤ c.val := by decide
  have h3 : ∀ c ∈ ascii "/ipp/print", 45 ≤ c.val := by decide
  have hz : ∀ l : List Byte, (∀ c ∈ l, 45 ≤ c.val) → List.count b l = 0 := by
    intro l hl
    rw [List.count_eq_zero]
    intro hmem
    have := hl b hmem
    omega
  unfold printerURI
  simp only [List.count_append, hz _ h1, hz _ h2, hz _ h3, fmtInt_count port b hb]
  omega

theorem response_count (localIP : List Byte) (port : Int) (requestID : Nat) (b : Byte)
    (hb : b.val < 45) :
    List.count b ((buildGetPrinterAttributesResponse localIP port requestID).drop 8)
      = List.count b (layoutBeforeURI 19) + List.count b (layoutAfterURI 19 23 26)
        + List.count b (be16 (printerURI localIP port).length) + List.count b localIP := by
  rw [response_split, List.drop_left' (by rfl)]
  simp only [List.count_append, printerURI_count localIP port b hb]
  omega

/-- The response ends with the unit byte of the resolution value and the end
marker, both `0x03`. -/
theorem response_ends (localIP : List Byte) (port : Int) (requestID : Nat) :
    ∃ front : List Byte, 8 ≤ front.length
      ∧ buildGetPrinterAttributesResponse localIP port requestID = front ++ [0x03, 0x03] := by
  have hafter : layoutAfterURI 19 23 26 = (layoutAfterURI 19 23 26).dropLast.dropLast ++ [0x03, 0x03] := by
    decide
  refine ⟨(be16 0x0101 ++ be16 0x0000 ++ be32 requestID)
        ++ (layoutBeforeURI 19
          ++ (be16 (printerURI localIP port).length
            ++ (printerURI localIP port ++ (layoutAfterURI 19 23 26).dropLast.dropLast))), ?_, ?_⟩
  · simp only [List.length_append, be16, be32, List.length_cons, List.length_nil]
    omega
  · rw [response_split]
    conv_lhs => rw [hafter]
    simp only [List.append_assoc]

/-! ## Group delimiter and end marker of the Get-Printer-Attributes response -/

/-- C4, as the code has it: for every request id, address text and port the
Get-Printer-Attributes response starts with 01 01 00 00 and the four bytes of
the request id, has the printer-attributes group delimiter 0x02 at offset 74
and has 0x03 as its last byte; from offset 8 onward the byte 0x02 occurs twice
(the delimiter and the last byte of the operations-supported value 00 00 00 02)
and the byte 0x03 three times (the last byte of the printer-state value, the
unit byte of the resolution value and the end marker), plus their occurrences
in the address text and in the length field of the URI; so the scan of
`parseIPPPrintRequest` applied to the response stops before the last byte and
leaves bytes after the marker it found. -/
theorem getPrinterAttributes_delimiters (localIP : List Byte) (port : Int) (requestID : Nat) :
    (buildGetPrinterAttributesResponse localIP port requestID).take 8
        = [0x01, 0x01, 0x00, 0x00] ++ be32 requestID
      ∧ (buildGetPrinterAttributesResponse localIP port requestID)[74]? = some 0x02
      ∧ (buildGetPrinterAttributesResponse localIP port requestID).getLast? = some 0x03
      ∧ List.count 0x02 ((buildGetPrinterAttributesResponse localIP port requestID).drop 8)
        = 2 + List.count 0x02 (be16 (printerURI localIP port).length) + List.count 0x02 localIP
      ∧ List.count 0x03 ((buildGetPrinterAttributesResponse localIP port requestID).drop 8)
        = 3 + List.count 0x03 (be16 (printerURI localIP port).length) + List.count 0x03 localIP
      ∧ (parseIPPPrintRequest (buildGetPrinterAttributesResponse localIP port requestID)).2.2
        ≠ [] := by
  refine ⟨getPrinterAttributes_take8 localIP port requestID, ?_, ?_, ?_, ?_, ?_⟩
  · have hlen : (be16 0x0101 ++ be16 0x0000 ++ be32 requestID).length = 8 := rfl
    have hbefore : (layoutBeforeURI 19)[66]? = some 0x02 := by decide
    rw [response_split, List.getElem?_append_right (by omega), hlen,
      List.getElem?_append_left (by decide), hbefore]
  · obtain ⟨front, _, hfront⟩ := response_ends localIP port requestID
    rw [hfront, List.getLast?_append_of_ne_nil _ (by simp)]
    rfl
  · rw [response_count localIP port requestID 0x02 (by decide)]
    have h1 : List.count 0x02 (layoutBeforeURI 19) = 1 := by decide
    have h2 : List.count 0x02 (layoutAfterURI 19 23 26) = 1 := by decide
    omega
  · rw [response_count localIP port requestID 0x03 (by decide)]
    have h1 : List.count 0x03 (layoutBeforeURI 19) = 0 := by decide
    have h2 : List.count 0x03 (layoutAfterURI 19 23 26) = 3 := by decide
    omega
  · obtain ⟨front, hlen, hfront⟩ := response_ends localIP port requestID
    rw [hfront]
    refine parse_data_ne_nil _ front.length hlen (by simp) ?_
    rw [List.getD_append_right _ _ _ _ (le_refl _)]
    simp

/-- C4 refuted at request id 1, address 192.168.1.10 and port 8082: from
offset 8 onward the response holds the byte 0x02 twice and the byte 0x03 three
times, and the scan for the first end marker stops at offset 188 (the end of
the printer-state value), leaving 215 bytes after it. -/
theorem getPrinterAttributes_delimiters_not_unique :
    List.count 0x02 ((buildGetPrinterAttributesResponse (ascii "192.168.1.10") 8082 1).drop 8) = 2
      ∧ List.count 0x03 ((buildGetPrinterAttributesResponse (ascii "192.168.1.10") 8082 1).drop 8)
        = 3
      ∧ (buildGetPrinterAttributesResponse (ascii "192.168.1.10") 8082 1).length = 404
      ∧ scanEndOfAttributes (buildGetPrinterAttributesResponse (ascii "192.168.1.10") 8082 1)
          404 8 = 189
      ∧ ((parseIPPPrintRequest
          (buildGetPrinterAttributesResponse (ascii "192.168.1.10") 8082 1)).2.2).length = 215 := by
  decide

/-- Writing the decoded request id back gives the four id bytes of the body. -/
theorem be32_requestID (body : List Byte) (h8 : 8 ≤ body.length) :
    be32 (decodeHeader body).2.2 = (body.drop 4).take 4 := by
  rw [decodeHeader_eq]
  match body, h8 with
  | b0 :: b1 :: b2 :: b3 :: b4 :: b5 :: b6 :: b7 :: rest, _ =>
    simp only [List.getD_cons_zero, List.getD_cons_succ, List.drop_succ_cons, List.drop_zero,
      List.take_succ_cons, List.take_zero, be32, byte, Nat.shiftRight_eq_div_pow]
    have h4 := b4.is_lt
    have h5 := b5.is_lt
    have h6 := b6.is_lt
    have h7 := b7.is_lt
    congr 1
    · apply Fin.ext; simp only []; omega
    congr 1
    · apply Fin.ext; simp only []; omega
    congr 1
    · apply Fin.ext; simp only []; omega
    congr 1
    · apply Fin.ext; simp only []; omega

/-! ## Requests that create no job -/

/-- C7: for every POST whose body as read is shorter than 8 bytes (the empty
body and a failed read included) `handleIPPPost` answers HTTP 400 through
`http.Error`, so without an IPP message, and the server - job counter and job
registry included - is exactly what it was before the request. -/
theorem short_body_bad_request (a : AirPrintServer) (env : Env) (r : Request) (body : List Byte)
    (hb : bodyAsRead r = some body) (hshort : body.length < 8) :
    (∃ msg, (handleIPPPost a env r).1 = HTTPResult.httpError 400 msg)
      ∧ (handleIPPPost a env r).2 = a
      ∧ (handleIPPPost a env r).2.jobCounter = a.jobCounter
      ∧ (handleIPPPost a env r).2.jobs = a.jobs := by
  obtain ⟨⟨h0, hlim⟩, hbody⟩ := bodyAsRead_eq_some r body hb
  rw [handleIPPPost_short a env r h0 hlim (by rw [hbody]; exact hshort)]
  split_ifs
  · exact ⟨⟨_, rfl⟩, rfl, rfl, rfl⟩
  · exact ⟨⟨_, rfl⟩, rfl, rfl, rfl⟩

/-- A read that fails at once, and a read of five bytes. -/
theorem short_body_bad_request_witness :
    (handleIPPPost NewAirPrintServer ⟨[], none, 0⟩ ⟨0, [], true, 65536⟩).2 = NewAirPrintServer
      ∧ (handleIPPPost NewAirPrintServer ⟨[], none, 0⟩ ⟨5, [1, 1, 0, 2, 0], false, 65536⟩).2
        = NewAirPrintServer :=
  ⟨(short_body_bad_request NewAirPrintServer ⟨[], none, 0⟩ ⟨0, [], true, 65536⟩ [] (by decide)
      (by decide)).2.1,
    (short_body_bad_request NewAirPrintServer ⟨[], none, 0⟩ ⟨5, [1, 1, 0, 2, 0], false, 65536⟩
      [1, 1, 0, 2, 0] (by decide) (by decide)).2.1⟩

/-- C8: for every POST body of at least 8 bytes whose operation code is not
0x0002 (Validate-Job, Get-Printer-Attributes and every unsupported code)
handling the request leaves the server as it was: the job counter and the job
registry are unchanged, no entry is added, removed or modified. -/
theorem non_print_job_frame (a : AirPrintServer) (env : Env) (r : Request) (body : List Byte)
    (hb : bodyAsRead r = some body) (h8 : 8 ≤ body.length)
    (hop : (decodeHeader body).2.1 ≠ 0x0002) :
    (handleIPPPost a env r).2 = a
      ∧ (handleIPPPost a env r).2.jobCounter = a.jobCounter
      ∧ (handleIPPPost a env r).2.jobs = a.jobs := by
  obtain ⟨⟨h0, hlim⟩, hbody⟩ := bodyAsRead_eq_some r body hb
  subst hbody
  have h : (handleIPPPost a env r).2 = a := by
    rw [handleIPPPost_dispatch a env r h0 hlim h8]
    split_ifs <;> rfl
  rw [h]
  exact ⟨rfl, rfl, rfl⟩

/-- A Validate-Job request handled by a server that holds one job. -/
theorem non_print_job_frame_witness :
    (handleIPPPost (run [Event.post ⟨[], none, 0⟩ ⟨8, [1, 1, 0, 2, 0, 0, 0, 1], false, 65536⟩])
        ⟨[], none, 0⟩ ⟨9, [1, 1, 0, 4, 0, 0, 0, 2, 3], false, 65536⟩).2
      = run [Event.post ⟨[], none, 0⟩ ⟨8, [1, 1, 0, 2, 0, 0, 0, 1], false, 65536⟩] :=
  (non_print_job_frame (run [Event.post ⟨[], none, 0⟩ ⟨8, [1, 1, 0, 2, 0, 0, 0, 1], false, 65536⟩])
    ⟨[], none, 0⟩ ⟨9, [1, 1, 0, 4, 0, 0, 0, 2, 3], false, 65536⟩ [1, 1, 0, 4, 0, 0, 0, 2, 3]
    (by decide) (by decide) (by decide)).1

/-- C9: for every POST body of at least 8 bytes whose operation code is none of
0x000B, 0x0002, 0x0004 `handleIPPPost` answers HTTP 200 and the body is exactly
the 9 bytes 01 01 05 00, the four request-id bytes of the request, 03; and
`buildErrorResponse(r, s)` is version 0x0101, the 2-byte big-endian s, the
4-byte big-endian r and the end marker, with no attribute body. -/
theorem unsupported_operation_response (a : AirPrintServer) (env : Env) (r : Request)
    (body : List Byte) (hb : bodyAsRead r = some body) (h8 : 8 ≤ body.length)
    (hB : (decodeHeader body).2.1 ≠ 0x000B) (h2 : (decodeHeader body).2.1 ≠ 0x0002)
    (h4 : (decodeHeader body).2.1 ≠ 0x0004) :
    (handleIPPPost a env r).1
        = HTTPResult.written 200 ([0x01, 0x01, 0x05, 0x00] ++ (body.drop 4).take 4 ++ [0x03])
      ∧ ([0x01, 0x01, 0x05, 0x00] ++ (body.drop 4).take 4 ++ [0x03] : List Byte).length = 9
      ∧ (body.drop 4).take 4 = be32 (decodeHeader body).2.2
      ∧ ∀ requestID statusCode : Nat,
          buildErrorResponse requestID statusCode
            = be16 0x0101 ++ be16 statusCode ++ be32 requestID ++ [0x03] := by
  obtain ⟨⟨h0, hlim⟩, hbody⟩ := bodyAsRead_eq_some r body hb
  subst hbody
  refine ⟨?_, ?_, (be32_requestID _ h8).symm, fun _ _ => rfl⟩
  · rw [handleIPPPost_dispatch a env r h0 hlim h8, if_neg hB, if_neg h2, if_neg h4,
      ← be32_requestID _ h8]
    rfl
  · simp only [List.length_append, List.length_take, List.length_drop, List.length_cons,
      List.length_nil]
    omega

/-- Operation 0x0005 with request id 0x01020304. -/
theorem unsupported_operation_response_witness :
    (handleIPPPost NewAirPrintServer ⟨[], none, 0⟩
        ⟨10, [1, 1, 0, 5, 1, 2, 3, 4, 0x47, 3], false, 65536⟩).1
      = HTTPResult.written 200 [0x01, 0x01, 0x05, 0x00, 1, 2, 3, 4, 0x03] :=
  (unsupported_operation_response NewAirPrintServer ⟨[], none, 0⟩
    ⟨10, [1, 1, 0, 5, 1, 2, 3, 4, 0x47, 3], false, 65536⟩ [1, 1, 0, 5, 1, 2, 3, 4, 0x47, 3]
    (by decide) (by decide) (by decide) (by decide) (by decide)).1

/-! ## Lemmas: the job registry along a run -/

theorem wrapInt_small (x : Int) (h0 : 0 ≤ x) (h : x < 2 ^ 63) : wrapInt x = x := by
  unfold wrapInt
  omega

theorem byteOfInt_shift (n k : Nat) : byteOfInt ((n : Int) >>> k) = byte (n >>> k) := by
  apply Fin.ext
  simp only [byteOfInt, byte, Int.shiftRight_eq_div_pow, Nat.shiftRight_eq_div_pow]
  have h : ((n : Int) / ((2 ^ k : Nat) : Int)) = ((n / 2 ^ k : Nat) : Int) := by
    norm_cast
  rw [h]
  omega

theorem byteOfInt_natCast (n : Nat) : byteOfInt (n : Int) = byte n := by
  apply Fin.ext
  simp only [byteOfInt, byte]
  omega

/-- What `buildPrintJobResponse` does to the server and what it returns. -/
theorem buildPrintJobResponse_spec (a : AirPrintServer) (env : Env) (requestID : Nat)
    (body : List Byte) :
    ∃ job : PrintJob, job.ID = wrapInt (a.jobCounter + 1) ∧ job.Status = "pending"
      ∧ job.Data = (parseIPPPrintRequest body).2.2
      ∧ (buildPrintJobResponse a env requestID body).2
        = { a with jobCounter := wrapInt (a.jobCounter + 1),
                   jobs := mapInsert a.jobs (wrapInt (a.jobCounter + 1)) job }
      ∧ (buildPrintJobResponse a env requestID body).1
        = (be16 0x0101 ++ be16 0x0000 ++ be32 requestID ++ ([0x02] : List Byte)
          ++ tlvAttribute 0x21 (ascii "job-id")
              [byteOfInt (wrapInt (a.jobCounter + 1) >>> (24 : Nat)),
               byteOfInt (wrapInt (a.jobCounter + 1) >>> (16 : Nat)),
               byteOfInt (wrapInt (a.jobCounter + 1) >>> (8 : Nat)),
               byteOfInt (wrapInt (a.jobCounter + 1))]
          ++ tlvAttribute 0x21 (ascii "job-state") (be32 3)
          ++ ([0x03] : List Byte) : List Byte) := by
  cases hdp : env.defaultPrinter with
  | none =>
    refine ⟨{ ID := wrapInt (a.jobCounter + 1), Name := (parseIPPPrintRequest body).1,
              Format := (parseIPPPrintRequest body).2.1, Data := (parseIPPPrintRequest body).2.2,
              Status := "pending", CreatedAt := env.now, PrinterName := "" },
      rfl, rfl, rfl, ?_, ?_⟩
    · simp only [buildPrintJobResponse, hdp]
    · simp [buildPrintJobResponse, tlvAttribute, tlvAttributeDeclared, be16, be32, ascii, byte]
  | some p =>
    refine ⟨{ ID := wrapInt (a.jobCounter + 1), Name := (parseIPPPrintRequest body).1,
              Format := (parseIPPPrintRequest body).2.1, Data := (parseIPPPrintRequest body).2.2,
              Status := "pending", CreatedAt := env.now, PrinterName := p },
      rfl, rfl, rfl, ?_, ?_⟩
    · simp only [buildPrintJobResponse, hdp]
    · simp [buildPrintJobResponse, tlvAttribute, tlvAttributeDeclared, be16, be32, ascii, byte]

/-- A request that is not a Print-Job leaves the server as it was. -/
theorem handleIPPPost_other (a : AirPrintServer) (env : Env) (r : Request)
    (h : isPrintJob r = false) : (handleIPPPost a env r).2 = a := by
  unfold isPrintJob bodyAsRead at h
  by_cases hneg : r.ContentLength < 0 ∨ (r.allocLimit : Int) < r.ContentLength
  · unfold handleIPPPost
    rw [if_pos hneg]
  · rw [if_neg hneg] at h
    simp only [Bool.and_eq_false_iff, decide_eq_false_iff_not, beq_eq_false_iff_ne] at h
    by_cases h8 : 8 ≤ (readBytes r).length
    · rw [handleIPPPost_dispatch a env r (by omega) (by omega) h8]
      have hop : (decodeHeader (readBytes r)).2.1 ≠ 0x0002 := by
        rcases h with h | h
        · exact absurd h8 h
        · exact h
      split_ifs <;> rfl
    · rw [handleIPPPost_short a env r (by omega) (by omega) (by omega)]
      split_ifs <;> rfl

/-- A Print-Job request is answered by `buildPrintJobResponse` on the body as
read. -/
theorem handleIPPPost_printJob (a : AirPrintServer) (env : Env) (r : Request)
    (h : isPrintJob r = true) :
    bodyAsRead r = some (readBytes r) ∧ 8 ≤ (readBytes r).length
      ∧ (decodeHeader (readBytes r)).2.1 = 0x0002
      ∧ handleIPPPost a env r =
        (HTTPResult.written 200
          (buildPrintJobResponse a env (decodeHeader (readBytes r)).2.2 (readBytes r)).1,
         (buildPrintJobResponse a env (decodeHeader (readBytes r)).2.2 (readBytes r)).2) := by
  unfold isPrintJob at h
  have hb : bodyAsRead r = some (readBytes r) := by
    unfold bodyAsRead at h ⊢
    by_cases hneg : r.ContentLength < 0 ∨ (r.allocLimit : Int) < r.ContentLength
    · rw [if_pos hneg] at h
      exact absurd h (by simp)
    · rw [if_neg hneg]
  rw [hb] at h
  simp only [Bool.and_eq_true, decide_eq_true_eq, beq_iff_eq] at h
  obtain ⟨⟨h0, hlim⟩, _⟩ := bodyAsRead_eq_some r _ hb
  refine ⟨hb, h.1, h.2, ?_⟩
  rw [handleIPPPost_dispatch a env r h0 hlim h.1, if_neg (by rw [h.2]; decide), if_pos h.2]

theorem jobIDs_setStatus (a : AirPrintServer) (jobID : Int) (status : String) :
    jobIDs (setStatus a jobID status) = jobIDs a := by
  unfold jobIDs setStatus
  simp only [List.map_map]
  apply List.map_congr_left
  intro e _
  simp only [Function.comp]
  split_ifs <;> rfl

theorem registryInv_setStatus (a : AirPrintServer) (n : Nat) (jobID : Int) (status : String)
    (h : RegistryInv a n) : RegistryInv (setStatus a jobID status) n := by
  obtain ⟨hc, hk, hn, hid⟩ := h
  refine ⟨hc, ?_, ?_, ?_⟩
  · rw [jobIDs_setStatus]; exact hk
  · rw [jobIDs_setStatus]; exact hn
  · intro e he
    simp only [setStatus, List.mem_map] at he
    obtain ⟨e₀, he₀, rfl⟩ := he
    split_ifs
    · exact hid e₀ he₀
    · exact hid e₀ he₀

/-- Under the invariant the new key is fresh and the map assignment adds one
entry in front. -/
theorem mapInsert_fresh (a : AirPrintServer) (n : Nat) (job : PrintJob) (h : RegistryInv a n) :
    mapInsert a.jobs ((n : Int) + 1) job = ((n : Int) + 1, job) :: a.jobs := by
  unfold mapInsert
  congr 1
  rw [List.filter_eq_self]
  intro e he
  have hmem : e.1 ∈ jobIDs a := List.mem_map_of_mem Prod.fst he
  have := (h.2.1 e.1).1 hmem
  simp only [ne_eq, decide_eq_true_eq]
  omega

theorem registryInv_insert (a : AirPrintServer) (n : Nat) (job : PrintJob)
    (h : RegistryInv a n) (hjob : job.ID = (n : Int) + 1) :
    RegistryInv { a with jobCounter := (n : Int) + 1, jobs := ((n : Int) + 1, job) :: a.jobs }
      (n + 1) := by
  obtain ⟨hc, hk, hn, hid⟩ := h
  refine ⟨by simp, ?_, ?_, ?_⟩
  · intro k
    simp only [jobIDs, List.map_cons, List.mem_cons]
    have := hk k
    simp only [jobIDs] at this
    rw [this]
    push_cast
    omega
  · simp only [jobIDs, List.map_cons, List.nodup_cons]
    refine ⟨?_, hn⟩
    intro hmem
    have := (hk _).1 hmem
    omega
  · intro e he
    simp only [List.mem_cons] at he
    rcases he with rfl | he
    · exact hjob
    · exact hid e he

/-- One event keeps the invariant, counting the job it may create. -/
theorem registryInv_step (a : AirPrintServer) (n : Nat) (e : Event) (h : RegistryInv a n)
    (hbound : n + printJobCount [e] < 2 ^ 63) :
    RegistryInv (step a e) (n + printJobCount [e]) := by
  cases e with
  | pipeline jobID status => exact registryInv_setStatus a n jobID status h
  | lifecycle server universalServer httpServer => exact h
  | post env r =>
    simp only [step, printJobCount] at hbound ⊢
    by_cases hp : isPrintJob r = true
    · rw [if_pos hp] at hbound ⊢
      obtain ⟨_, _, _, hh⟩ := handleIPPPost_printJob a env r hp
      obtain ⟨job, hj, _, _, hstate, _⟩ :=
        buildPrintJobResponse_spec a env (decodeHeader (readBytes r)).2.2 (readBytes r)
      have hw : wrapInt (a.jobCounter + 1) = (n : Int) + 1 := by
        rw [h.1]; exact wrapInt_small _ (by omega) (by omega)
      rw [hh, hstate, hw, mapInsert_fresh a n job h]
      exact registryInv_insert a n job h (by rw [hj, hw])
    · have hp' : isPrintJob r = false := by simpa using hp
      rw [if_neg hp, handleIPPPost_other a env r hp']
      exact h

theorem printJobCount_cons (e : Event) (es : List Event) :
    printJobCount (e :: es) = printJobCount [e] + printJobCount es := by
  cases e <;> simp [printJobCount]

/-- The invariant along a run. -/
theorem registryInv_runFrom (es : List Event) (a : AirPrintServer) (n : Nat)
    (h : RegistryInv a n) (hbound : n + printJobCount es < 2 ^ 63) :
    RegistryInv (runFrom a es) (n + printJobCount es) := by
  induction es generalizing a n with
  | nil => exact h
  | cons e es ih =>
    rw [printJobCount_cons] at hbound ⊢
    have hstep := registryInv_step a n e h (by omega)
    have := ih (step a e) (n + printJobCount [e]) hstep (by omega)
    rw [Nat.add_assoc] at this
    exact this

theorem registryInv_init : RegistryInv NewAirPrintServer 0 := by
  refine ⟨rfl, ?_, List.nodup_nil, ?_⟩
  · intro k
    simp only [jobIDs, NewAirPrintServer, List.map_nil, List.not_mem_nil, false_iff]
    omega
  · intro e he
    simp [NewAirPrintServer] at he

theorem registryInv_run (es : List Event) (hbound : printJobCount es < 2 ^ 63) :
    RegistryInv (run es) (printJobCount es) := by
  have := registryInv_runFrom es NewAirPrintServer 0 registryInv_init (by omega)
  rw [Nat.zero_add] at this
  exact this

theorem runFrom_append_post (a : AirPrintServer) (es : List Event) (env : Env) (r : Request) :
    runFrom a (es ++ [Event.post env r]) = (handleIPPPost (runFrom a es) env r).2 := by
  induction es generalizing a with
  | nil => rfl
  | cons e es ih => exact ih (step a e)

/-! ## Job creation -/

/-- C5: in every server state reached from `NewAirPrintServer` with fewer than
2^32 - 1 jobs created, for every request id and request body
`buildPrintJobResponse` adds exactly one entry to the job registry, whose id
is the number of jobs created so far plus one, strictly greater than every id
previously in the registry, whose `ID` field is that id and whose status is
"pending"; it returns header(0x0101, 0x0000, r), the job-attributes group tag,
a job-id attribute whose 4-byte big-endian value equals the new id, a job-state
attribute with value 3 and the end marker, 43 bytes in all. -/
theorem print_job_creates_one_job (es : List Event) (env : Env) (requestID : Nat)
    (body : List Byte) (hcount : printJobCount es < 2 ^ 32 - 1) :
    ∃ job : PrintJob,
      (buildPrintJobResponse (run es) env requestID body).2.jobs
          = (((printJobCount es + 1 : Nat) : Int), job) :: (run es).jobs
        ∧ (buildPrintJobResponse (run es) env requestID body).2.jobCounter
          = ((printJobCount es + 1 : Nat) : Int)
        ∧ (∀ k ∈ jobIDs (run es), k < ((printJobCount es + 1 : Nat) : Int))
        ∧ job.ID = ((printJobCount es + 1 : Nat) : Int)
        ∧ job.Status = "pending"
        ∧ job.Data = (parseIPPPrintRequest body).2.2
        ∧ (buildPrintJobResponse (run es) env requestID body).1
          = be16 0x0101 ++ be16 0x0000 ++ be32 requestID ++ ([0x02] : List Byte)
            ++ tlvAttribute 0x21 (ascii "job-id") (be32 (printJobCount es + 1))
            ++ tlvAttribute 0x21 (ascii "job-state") (be32 3)
            ++ ([0x03] : List Byte)
        ∧ (byte ((printJobCount es + 1) >>> 24)).val * 2 ^ 24
            + (byte ((printJobCount es + 1) >>> 16)).val * 2 ^ 16
            + (byte ((printJobCount es + 1) >>> 8)).val * 2 ^ 8
            + (byte (printJobCount es + 1)).val = printJobCount es + 1
        ∧ (buildPrintJobResponse (run es) env requestID body).1.length = 43 := by
  have hinv := registryInv_run es (by omega)
  obtain ⟨job, hj, hst, hdata, hstate, hresp⟩ :=
    buildPrintJobResponse_spec (run es) env requestID body
  have hw : wrapInt ((run es).jobCounter + 1) = ((printJobCount es + 1 : Nat) : Int) := by
    rw [hinv.1, wrapInt_small _ (by omega) (by omega)]
    push_cast
    rfl
  have hw' : ((printJobCount es + 1 : Nat) : Int) = (printJobCount es : Int) + 1 := by
    push_cast; rfl
  refine ⟨job, ?_, ?_, ?_, ?_, hst, hdata, ?_, be32_decode _ (by omega), ?_⟩
  · rw [hstate, hw, hw']
    exact mapInsert_fresh (run es) (printJobCount es) job hinv
  · rw [hstate, hw]
  · intro k hk
    have := (hinv.2.1 k).1 hk
    omega
  · rw [hj, hw]
  · rw [hresp, hw]
    have e1 := byteOfInt_shift (printJobCount es + 1) 24
    have e2 := byteOfInt_shift (printJobCount es + 1) 16
    have e3 := byteOfInt_shift (printJobCount es + 1) 8
    have e4 := byteOfInt_natCast (printJobCount es + 1)
    rw [e1, e2, e3, e4]
    rfl
  · rw [hresp]
    rfl

/-- The second Print-Job request of a server that holds one job and has
handled a Validate-Job request since. -/
theorem print_job_creates_one_job_witness :
    ∃ job : PrintJob,
      (buildPrintJobResponse
          (run [Event.post ⟨[], none, 0⟩ ⟨8, [1, 1, 0, 2, 0, 0, 0, 1], false, 65536⟩,
                Event.post ⟨[], none, 0⟩ ⟨8, [1, 1, 0, 4, 0, 0, 0, 2], false, 65536⟩])
          ⟨[], none, 0⟩ 7 [1, 1, 0, 2, 0, 0, 0, 7, 3, 65]).2.jobs
          = (2, job)
            :: (run [Event.post ⟨[], none, 0⟩ ⟨8, [1, 1, 0, 2, 0, 0, 0, 1], false, 65536⟩,
                     Event.post ⟨[], none, 0⟩ ⟨8, [1, 1, 0, 4, 0, 0, 0, 2], false, 65536⟩]).jobs
        ∧ job.Status = "pending" := by
  obtain ⟨job, h1, _, _, _, h5, _⟩ :=
    print_job_creates_one_job
      [Event.post ⟨[], none, 0⟩ ⟨8, [1, 1, 0, 2, 0, 0, 0, 1], false, 65536⟩,
       Event.post ⟨[], none, 0⟩ ⟨8, [1, 1, 0, 4, 0, 0, 0, 2], false, 65536⟩]
      ⟨[], none, 0⟩ 7 [1, 1, 0, 2, 0, 0, 0, 7, 3, 65] (by decide)
  exact ⟨job, h1, h5⟩

/-- C6: job ids start at 1 and are never reused. After every sequence of
events handled one after another by a server created with
`NewAirPrintServer`, with fewer than 2^63 - 1 Print-Job requests among them
(the range of the counter), the job counter is the number of Print-Job
requests handled, the registry's keys are exactly 1, ..., jobCounter, each
once, and every stored job has its key in its `ID` field; the next Print-Job
request, the k-th, is assigned id k: it is stored under the key k with `ID` k
in front of the unchanged earlier entries. -/
theorem job_ids_sequential (es : List Event) (hcount : printJobCount es < 2 ^ 63 - 1) :
    (run es).jobCounter = (printJobCount es : Int)
      ∧ (∀ k : Int, k ∈ jobIDs (run es) ↔ 1 ≤ k ∧ k ≤ (run es).jobCounter)
      ∧ (jobIDs (run es)).Nodup
      ∧ (∀ e ∈ (run es).jobs, e.2.ID = e.1)
      ∧ ∀ (env : Env) (r : Request), isPrintJob r = true →
          ∃ job : PrintJob,
            (handleIPPPost (run es) env r).2.jobs
                = (((printJobCount es + 1 : Nat) : Int), job) :: (run es).jobs
              ∧ job.ID = ((printJobCount es + 1 : Nat) : Int)
              ∧ (handleIPPPost (run es) env r).2.jobCounter
                = ((printJobCount es + 1 : Nat) : Int)
              ∧ run (es ++ [Event.post env r]) = (handleIPPPost (run es) env r).2 := by
  have hinv := registryInv_run es (by omega)
  refine ⟨hinv.1, ?_, hinv.2.2.1, hinv.2.2.2, ?_⟩
  · intro k
    rw [hinv.1]
    exact hinv.2.1 k
  · intro env r hp
    obtain ⟨_, _, _, hh⟩ := handleIPPPost_printJob (run es) env r hp
    obtain ⟨job, hj, _, _, hstate, _⟩ :=
      buildPrintJobResponse_spec (run es) env (decodeHeader (readBytes r)).2.2 (readBytes r)
    have hw : wrapInt ((run es).jobCounter + 1) = ((printJobCount es + 1 : Nat) : Int) := by
      rw [hinv.1, wrapInt_small _ (by omega) (by omega)]
      push_cast
      rfl
    have hw' : ((printJobCount es + 1 : Nat) : Int) = (printJobCount es : Int) + 1 := by
      push_cast; rfl
    refine ⟨job, ?_, ?_, ?_, ?_⟩
    · rw [hh, hstate, hw, hw']
      exact mapInsert_fresh (run es) (printJobCount es) job hinv
    · rw [hj, hw]
    · rw [hh, hstate, hw]
    · exact runFrom_append_post NewAirPrintServer es env r

/-- Two Print-Job requests with a Validate-Job request between them. -/
theorem job_ids_sequential_witness :
    (jobIDs (run [Event.post ⟨[], none, 0⟩ ⟨8, [1, 1, 0, 2, 0, 0, 0, 1], false, 65536⟩,
                  Event.post ⟨[], none, 0⟩ ⟨8, [1, 1, 0, 4, 0, 0, 0, 2], false, 65536⟩,
                  Event.post ⟨[], none, 0⟩ ⟨8, [1, 1, 0, 2, 0, 0, 0, 3], false, 65536⟩])).Nodup
      ∧ (run [Event.post ⟨[], none, 0⟩ ⟨8, [1, 1, 0, 2, 0, 0, 0, 1], false, 65536⟩,
              Event.post ⟨[], none, 0⟩ ⟨8, [1, 1, 0, 4, 0, 0, 0, 2], false, 65536⟩,
              Event.post ⟨[], none, 0⟩ ⟨8, [1, 1, 0, 2, 0, 0, 0, 3], false, 65536⟩]).jobCounter
        = ((printJobCount
            [Event.post ⟨[], none, 0⟩ ⟨8, [1, 1, 0, 2, 0, 0, 0, 1], false, 65536⟩,
             Event.post ⟨[], none, 0⟩ ⟨8, [1, 1, 0, 4, 0, 0, 0, 2], false, 65536⟩,
             Event.post ⟨[], none, 0⟩ ⟨8, [1, 1, 0, 2, 0, 0, 0, 3], false, 65536⟩] : Nat) : Int) :=
  ⟨(job_ids_sequential
      [Event.post ⟨[], none, 0⟩ ⟨8, [1, 1, 0, 2, 0, 0, 0, 1], false, 65536⟩,
       Event.post ⟨[], none, 0⟩ ⟨8, [1, 1, 0, 4, 0, 0, 0, 2], false, 65536⟩,
       Event.post ⟨[], none, 0⟩ ⟨8, [1, 1, 0, 2, 0, 0, 0, 3], false, 65536⟩] (by decide)).2.2.1,
   (job_ids_sequential
      [Event.post ⟨[], none, 0⟩ ⟨8, [1, 1, 0, 2, 0, 0, 0, 1], false, 65536⟩,
       Event.post ⟨[], none, 0⟩ ⟨8, [1, 1, 0, 4, 0, 0, 0, 2], false, 65536⟩,
       Event.post ⟨[], none, 0⟩ ⟨8, [1, 1, 0, 2, 0, 0, 0, 3], false, 65536⟩] (by decide)).1⟩

/-! ## The document format of a Print-Job request -/

/-- A text found in the back part of a byte string is found in the whole. -/
theorem stringsContains_append_right (sub front back : List Byte)
    (h : stringsContains sub back = true) : stringsContains sub (front ++ back) = true := by
  induction front with
  | nil => exact h
  | cons b front ih =>
    rw [List.cons_append, stringsContains, ih, Bool.or_true]

/-- C11, as the code has it: the format scan of `parseIPPPrintRequest` reads
the whole body, document payload included. The two bodies below are identical
up to and including their first 0x03 byte at offset 8 and differ only in the
payload after it; none of the four known format strings occurs before the
marker; yet the first body is classified application/octet-stream and the
second, whose payload holds the text "application/pdf", is classified
application/pdf. In general a payload that holds the text "application/pdf"
makes the format application/pdf whatever stands before it. -/
theorem document_format_reads_payload :
    (parseIPPPrintRequest ([0x01, 0x01, 0x00, 0x02, 0x00, 0x00, 0x00, 0x01, 0x03]
        ++ ascii "plain words")).2.1 = "application/octet-stream"
      ∧ (parseIPPPrintRequest ([0x01, 0x01, 0x00, 0x02, 0x00, 0x00, 0x00, 0x01, 0x03]
        ++ ascii "see application/pdf")).2.1 = "application/pdf"
      ∧ (parseIPPPrintRequest ([0x01, 0x01, 0x00, 0x02, 0x00, 0x00, 0x00, 0x01, 0x03]
        ++ ascii "plain words")).2.2 = ascii "plain words"
      ∧ (parseIPPPrintRequest ([0x01, 0x01, 0x00, 0x02, 0x00, 0x00, 0x00, 0x01, 0x03]
        ++ ascii "see application/pdf")).2.2 = ascii "see application/pdf"
      ∧ stringsContains (ascii "application/pdf")
          [0x01, 0x01, 0x00, 0x02, 0x00, 0x00, 0x00, 0x01, 0x03] = false
      ∧ stringsContains (ascii "text/plain")
          [0x01, 0x01, 0x00, 0x02, 0x00, 0x00, 0x00, 0x01, 0x03] = false
      ∧ stringsContains (ascii "image/jpeg")
          [0x01, 0x01, 0x00, 0x02, 0x00, 0x00, 0x00, 0x01, 0x03] = false
      ∧ stringsContains (ascii "image/png")
          [0x01, 0x01, 0x00, 0x02, 0x00, 0x00, 0x00, 0x01, 0x03] = false
      ∧ ∀ front payload : List Byte,
          stringsContains (ascii "application/pdf") payload = true →
          (parseIPPPrintRequest (front ++ payload)).2.1 = "application/pdf" := by
  refine ⟨by decide, by decide, by decide, by decide, by decide, by decide, by decide,
    by decide, ?_⟩
  intro front payload h
  have hc := stringsContains_append_right (ascii "application/pdf") front payload h
  simp only [parseIPPPrintRequest, hc, if_true]

/-! ## Lemmas: the execution pipeline -/

/-- The error result of `printToSystem` in terms of its inputs. -/
theorem printToSystem_err (env : ExecEnv) (st : ExecState) (filePath printerName : String) :
    (printToSystem env st filePath printerName).1 = !dispatchOK env := by
  unfold printToSystem dispatchOK
  by_cases hd : env.goos = "darwin"
  · simp [hd]
  · by_cases hl : env.goos = "linux"
    · simp [hl]
    · simp [hd, hl]

/-- What `printToSystem` records: one dispatch, and nothing in the file system. -/
theorem printToSystem_state (env : ExecEnv) (st : ExecState) (filePath printerName : String) :
    (printToSystem env st filePath printerName).2.job = st.job
      ∧ (printToSystem env st filePath printerName).2.statuses = st.statuses
      ∧ (printToSystem env st filePath printerName).2.dispatched
        = st.dispatched ++ [(filePath, printerName)]
      ∧ (printToSystem env st filePath printerName).2.fs = st.fs := by
  unfold printToSystem
  by_cases hd : env.goos = "darwin"
  · simp [hd]
  · by_cases hl : env.goos = "linux"
    · simp [hl]
    · simp [hd, hl]

/-- The run of `executePrintJob` when the write fails. -/
theorem executePrintJob_write_failed (env : ExecEnv) (fs : FileSystem) (job : PrintJob)
    (hw : env.write ≠ WriteOutcome.written) :
    (executePrintJob env fs job).job = { job with Status := "aborted" }
      ∧ (executePrintJob env fs job).statuses = ["processing", "aborted"]
      ∧ (executePrintJob env fs job).dispatched = []
      ∧ (executePrintJob env fs job).calls
        = [ExecCall.writeFile (tempFilePath env job) job.Data] := by
  cases hwe : env.write with
  | written => exact absurd hwe hw
  | failedBeforeCreate =>
    simp [executePrintJob, createTempFile, assignStatus, hwe, tempFilePath]
  | failedAfterCreate content =>
    simp [executePrintJob, createTempFile, assignStatus, hwe, tempFilePath]

/-- The run of `executePrintJob` when the write succeeds. -/
theorem executePrintJob_written (env : ExecEnv) (fs : FileSystem) (job : PrintJob)
    (hw : env.write = WriteOutcome.written) :
    (executePrintJob env fs job).job
        = { job with Status := if dispatchOK env then "completed" else "aborted" }
      ∧ (executePrintJob env fs job).statuses
        = ["processing", if dispatchOK env then "completed" else "aborted"]
      ∧ (executePrintJob env fs job).dispatched = [(tempFilePath env job, job.PrinterName)]
      ∧ (executePrintJob env fs job).fs
        = fsRemove (fsWrite fs (tempFilePath env job) job.Data) (tempFilePath env job)
      ∧ ∃ cmds : List ExecCall, cmds.length ≤ 1
          ∧ (∀ c ∈ cmds, ∃ argv, c = ExecCall.command argv)
          ∧ (executePrintJob env fs job).calls
            = ExecCall.writeFile (tempFilePath env job) job.Data
              :: (cmds ++ [ExecCall.remove (tempFilePath env job)]) := by
  by_cases hd : env.goos = "darwin"
  · refine ⟨?_, ?_, ?_, ?_,
      [ExecCall.command (if job.PrinterName ≠ "" then
        ["lpr", "-P", job.PrinterName, tempFilePath env job] else ["lpr", tempFilePath env job])],
      le_refl _, fun c h => ⟨_, List.mem_singleton.1 h⟩, ?_⟩ <;>
    cases hc : env.commandOK <;>
    simp [executePrintJob, createTempFile, printToSystem, assignStatus, deferredRemove,
      dispatchOK, hw, hd, hc, tempFilePath]
  · by_cases hl : env.goos = "linux"
    · refine ⟨?_, ?_, ?_, ?_,
        [ExecCall.command (if job.PrinterName ≠ "" then
          ["lp", "-d", job.PrinterName, tempFilePath env job] else ["lp", tempFilePath env job])],
        le_refl _, fun c h => ⟨_, List.mem_singleton.1 h⟩, ?_⟩ <;>
      cases hc : env.commandOK <;>
      simp [executePrintJob, createTempFile, printToSystem, assignStatus, deferredRemove,
        dispatchOK, hw, hl, hc, tempFilePath]
    · refine ⟨?_, ?_, ?_, ?_, [], Nat.zero_le _, fun c h => absurd h (List.not_mem_nil c), ?_⟩ <;>
        simp [executePrintJob, createTempFile, printToSystem, assignStatus, deferredRemove,
          dispatchOK, hw, hd, hl, tempFilePath]

theorem fsExists_fsWrite (fs : FileSystem) (path : String) (data : List Byte) :
    fsExists (fsWrite fs path data) path = true := by
  simp [fsExists, fsWrite]

theorem fsExists_fsRemove (fs : FileSystem) (path : String) :
    fsExists (fsRemove fs path) path = false := by
  simp [fsExists, fsRemove]

/-- The file system after `executePrintJob` when the write fails. -/
theorem executePrintJob_write_failed_fs (env : ExecEnv) (fs : FileSystem) (job : PrintJob) :
    (env.write = WriteOutcome.failedBeforeCreate → (executePrintJob env fs job).fs = fs)
      ∧ ∀ content, env.write = WriteOutcome.failedAfterCreate content →
          (executePrintJob env fs job).fs = fsWrite fs (tempFilePath env job) content := by
  constructor
  · intro hw
    simp [executePrintJob, createTempFile, assignStatus, hw]
  · intro content hw
    simp [executePrintJob, createTempFile, assignStatus, hw, tempFilePath]

/-! ## Execution outcomes -/

/-- C12: with the outcome of the temp-file write and of the print dispatch as
inputs, for every pending job `executePrintJob` leaves the status "completed"
if and only if the write succeeded and the dispatch succeeded, and "aborted"
otherwise; a job whose dispatch succeeds holds exactly the statuses pending,
processing, completed, in this order; a job whose payload write fails goes from
pending to aborted (by way of processing, assigned before the write), never has
the dispatch invoked and never has status completed; every status it ever holds
is one of pending, processing, completed, aborted; and no step is retried: the
file is written once and the dispatch is invoked at most once. -/
theorem execution_outcomes (env : ExecEnv) (fs : FileSystem) (job : PrintJob)
    (hp : job.Status = "pending") :
    ((executePrintJob env fs job).job.Status = "completed"
        ↔ env.write = WriteOutcome.written ∧ dispatchOK env = true)
      ∧ ((executePrintJob env fs job).job.Status = "aborted"
        ↔ ¬ (env.write = WriteOutcome.written ∧ dispatchOK env = true))
      ∧ (env.write = WriteOutcome.written → dispatchOK env = true →
          job.Status :: (executePrintJob env fs job).statuses
            = ["pending", "processing", "completed"])
      ∧ (env.write ≠ WriteOutcome.written →
          job.Status :: (executePrintJob env fs job).statuses
              = ["pending", "processing", "aborted"]
            ∧ (executePrintJob env fs job).dispatched = []
            ∧ "completed" ∉ job.Status :: (executePrintJob env fs job).statuses)
      ∧ (∀ s ∈ job.Status :: (executePrintJob env fs job).statuses,
          s = "pending" ∨ s = "processing" ∨ s = "completed" ∨ s = "aborted")
      ∧ (executePrintJob env fs job).dispatched.length ≤ 1
      ∧ ∃ cmds removes : List ExecCall, cmds.length ≤ 1 ∧ removes.length ≤ 1
          ∧ (∀ c ∈ cmds, ∃ argv, c = ExecCall.command argv)
          ∧ (∀ c ∈ removes, c = ExecCall.remove (tempFilePath env job))
          ∧ (executePrintJob env fs job).calls
            = ExecCall.writeFile (tempFilePath env job) job.Data :: (cmds ++ removes) := by
  by_cases hw : env.write = WriteOutcome.written
  · obtain ⟨hj, hs, hd, _, cmds, hlen, hcmd, hcalls⟩ := executePrintJob_written env fs job hw
    have hrest : ∃ cmds removes : List ExecCall, cmds.length ≤ 1 ∧ removes.length ≤ 1
        ∧ (∀ c ∈ cmds, ∃ argv, c = ExecCall.command argv)
        ∧ (∀ c ∈ removes, c = ExecCall.remove (tempFilePath env job))
        ∧ (executePrintJob env fs job).calls
          = ExecCall.writeFile (tempFilePath env job) job.Data :: (cmds ++ removes) :=
      ⟨cmds, [ExecCall.remove (tempFilePath env job)], hlen, le_refl _, hcmd,
        fun c h => List.mem_singleton.1 h, hcalls⟩
    cases hok : dispatchOK env
    · rw [hok] at hj hs
      simp only [Bool.false_eq_true, if_false] at hj hs
      refine ⟨?_, ?_, ?_, ?_, ?_, ?_, hrest⟩
      · rw [hj]; simp
      · rw [hj]; simp
      · intro _ h; exact absurd h (by simp)
      · intro h; exact absurd hw h
      · rw [hs, hp]; intro s hmem; simp at hmem; tauto
      · rw [hd]; simp
    · rw [hok] at hj hs
      simp only [if_true] at hj hs
      refine ⟨?_, ?_, ?_, ?_, ?_, ?_, hrest⟩
      · rw [hj]; simp [hw]
      · rw [hj]; simp [hw]
      · intro _ _; rw [hs, hp]
      · intro h; exact absurd hw h
      · rw [hs, hp]; intro s hmem; simp at hmem; tauto
      · rw [hd]; simp
  · obtain ⟨hj, hs, hd, hcalls⟩ := executePrintJob_write_failed env fs job hw
    refine ⟨?_, ?_, ?_, ?_, ?_, ?_, ⟨[], [], Nat.zero_le _, Nat.zero_le _, ?_, ?_, ?_⟩⟩
    · rw [hj]; simp [hw]
    · rw [hj]; simp [hw]
    · intro h; exact absurd h hw
    · intro _
      refine ⟨by rw [hs, hp], hd, ?_⟩
      rw [hs, hp]; simp
    · rw [hs, hp]; intro s hmem; simp at hmem; tauto
    · rw [hd]; simp
    · intro c h; exact absurd h (List.not_mem_nil c)
    · intro c h; exact absurd h (List.not_mem_nil c)
    · rw [hcalls]; rfl

/-- A pending PDF job whose write succeeds on a Linux host where `lp` ends
without error, and the same job when the write fails. -/
theorem execution_outcomes_witness :
    (executePrintJob ⟨"/tmp", 1700000000, WriteOutcome.written, "linux", true⟩ []
        ⟨1, "Untitled", "application/pdf", [0x25, 0x50], "pending", 0, ""⟩).job.Status
        = "completed"
      ∧ (executePrintJob ⟨"/tmp", 1700000000, WriteOutcome.failedBeforeCreate, "linux", true⟩ []
        ⟨1, "Untitled", "application/pdf", [0x25, 0x50], "pending", 0, ""⟩).dispatched = [] :=
  ⟨((execution_outcomes ⟨"/tmp", 1700000000, WriteOutcome.written, "linux", true⟩ []
      ⟨1, "Untitled", "application/pdf", [0x25, 0x50], "pending", 0, ""⟩ rfl).1).2
      ⟨rfl, by decide⟩,
    ((execution_outcomes ⟨"/tmp", 1700000000, WriteOutcome.failedBeforeCreate, "linux", true⟩ []
      ⟨1, "Untitled", "application/pdf", [0x25, 0x50], "pending", 0, ""⟩ rfl).2.2.2.1
      (by decide)).2.1⟩

/-! ## The temporary file -/

/-- C13, as the code has it: `executePrintJob` removes the temporary file only
on the paths that follow a successful write. When the write succeeded the path
chosen for the temporary file does not exist after the return, whatever the
dispatch did; when the write fails after having created the file, the function
returns without a call of `os.Remove` and the file still exists; when the write
fails before creating the file, the file system is left as it was. -/
theorem temp_file_left_after_failed_write (env : ExecEnv) (fs : FileSystem) (job : PrintJob)
    (content : List Byte) :
    fsExists (executePrintJob { env with write := WriteOutcome.written } fs job).fs
        (tempFilePath env job) = false
      ∧ fsExists
          (executePrintJob { env with write := WriteOutcome.failedAfterCreate content } fs job).fs
          (tempFilePath env job) = true
      ∧ (executePrintJob { env with write := WriteOutcome.failedAfterCreate content } fs job).calls
          = [ExecCall.writeFile (tempFilePath env job) job.Data]
      ∧ (executePrintJob { env with write := WriteOutcome.failedBeforeCreate } fs job).fs = fs
      ∧ fsExists
          (executePrintJob ⟨"/tmp", 1700000000, WriteOutcome.failedAfterCreate [], "linux", true⟩ []
            ⟨1, "Untitled", "application/pdf", [0x25, 0x50], "pending", 0, ""⟩).fs
          "/tmp/airprint_1_1700000000.pdf" = true := by
  refine ⟨?_, ?_, ?_, ?_, by decide⟩
  · have h := (executePrintJob_written { env with write := WriteOutcome.written } fs job rfl).2.2.2.1
    rw [h]
    exact fsExists_fsRemove _ _
  · have h := (executePrintJob_write_failed_fs
      { env with write := WriteOutcome.failedAfterCreate content } fs job).2 content rfl
    rw [h]
    exact fsExists_fsWrite _ _ _
  · exact (executePrintJob_write_failed
      { env with write := WriteOutcome.failedAfterCreate content } fs job (by simp)).2.2.2
  · exact (executePrintJob_write_failed_fs
      { env with write := WriteOutcome.failedBeforeCreate } fs job).1 rfl

/-! ## Activation -/

/-- C14: with local-address resolution, default-printer lookup, primary
registration and subtype registration as calls with arbitrary outcomes, `Start`
returns an error if and only if local-address resolution fails or the primary
`_ipp._tcp` registration fails; the outcomes of the
`_universal._sub._ipp._tcp` registration and of the default-printer lookup
never change the error `Start` returns; when the lookup fails the instance name
falls back to "AirPrint Service @ <hostname>"; both registrations are attempted
exactly when the address resolves and the primary registration succeeds, and
then they receive the same instance name, domain, port and metadata list under
the service types `_ipp._tcp` and `_universal._sub._ipp._tcp`. -/
theorem start_fails_iff (a : AirPrintServer) (env : StartEnv) :
    ((Start a env).1 ≠ none
        ↔ (∃ err, env.localIP = Except.error err) ∨ env.registerPrimary ≠ none)
      ∧ (∀ (universal : Option String) (lookup : Except String String),
          (Start a { env with registerUniversal := universal, defaultPrinter := lookup }).1
            = (Start a env).1)
      ∧ (∀ err, env.defaultPrinter = Except.error err →
          ∀ call ∈ (Start a env).2.2, call.instanceName = "AirPrint Service @ " ++ env.hostname)
      ∧ ((∃ primary universal, (Start a env).2.2 = [primary, universal])
          ↔ (∃ ip, env.localIP = Except.ok ip) ∧ env.registerPrimary = none)
      ∧ ∀ primary universal, (Start a env).2.2 = [primary, universal] →
          primary.instanceName = universal.instanceName
            ∧ primary.domain = universal.domain
            ∧ primary.port = universal.port
            ∧ primary.txt = universal.txt
            ∧ primary.port = a.port
            ∧ primary.service = "_ipp._tcp"
            ∧ universal.service = "_universal._sub._ipp._tcp" := by
  cases hip : env.localIP with
  | error e =>
    refine ⟨?_, ?_, ?_, ?_, ?_⟩ <;>
      simp [Start, startHTTPServer, registerMDNSService, hip]
  | ok ip =>
    cases hprim : env.registerPrimary with
    | some e =>
      refine ⟨?_, ?_, ?_, ?_, ?_⟩ <;>
        simp [Start, startHTTPServer, registerMDNSService, hip, hprim]
      intro err hd
      simp [hd]
    | none =>
      cases huni : env.registerUniversal with
      | some e =>
        refine ⟨?_, ?_, ?_, ?_, ?_⟩
        · simp [Start, startHTTPServer, registerMDNSService, hip, hprim, huni]
        · intro universal lookup
          cases universal <;>
            simp [Start, startHTTPServer, registerMDNSService, hip, hprim, huni]
        · intro err hd
          simp [Start, startHTTPServer, registerMDNSService, hip, hprim, huni, hd]
        · simp [Start, startHTTPServer, registerMDNSService, hip, hprim, huni]
        · intro primary universal
          simp only [Start, startHTTPServer, registerMDNSService, hip, hprim, huni,
            List.cons.injEq, and_true]
          rintro ⟨rfl, rfl⟩
          exact ⟨rfl, rfl, rfl, rfl, rfl, rfl, rfl⟩
      | none =>
        refine ⟨?_, ?_, ?_, ?_, ?_⟩
        · simp [Start, startHTTPServer, registerMDNSService, hip, hprim, huni]
        · intro universal lookup
          cases universal <;>
            simp [Start, startHTTPServer, registerMDNSService, hip, hprim, huni]
        · intro err hd
          simp [Start, startHTTPServer, registerMDNSService, hip, hprim, huni, hd]
        · simp [Start, startHTTPServer, registerMDNSService, hip, hprim, huni]
        · intro primary universal
          simp only [Start, startHTTPServer, registerMDNSService, hip, hprim, huni,
            List.cons.injEq, and_true]
          rintro ⟨rfl, rfl⟩
          exact ⟨rfl, rfl, rfl, rfl, rfl, rfl, rfl⟩

/-! ## Totality of the POST handler -/

/-- The value the loop leaves in `dataStart` is `-1` or an index inside the
body, after the index the loop started at. -/
theorem scan_range (body : List Byte) (fuel i : Nat) :
    scanEndOfAttributes body fuel i = -1
      ∨ ((i : Int) < scanEndOfAttributes body fuel i
        ∧ scanEndOfAttributes body fuel i < (body.length : Int)) := by
  induction fuel generalizing i with
  | zero => left; rfl
  | succ n ih =>
    unfold scanEndOfAttributes
    split_ifs with h1 h2
    · right; omega
    · rcases ih (i + 1) with h | h
      · left; exact h
      · right; omega
    · left; rfl

/-- The answer of the handler when the buffer can be allocated. -/
theorem handleIPPPost_answers (a : AirPrintServer) (env : Env) (r : Request)
    (h0 : 0 ≤ r.ContentLength) (hlim : r.ContentLength ≤ (r.allocLimit : Int)) :
    (∃ msg, (handleIPPPost a env r).1 = HTTPResult.httpError 400 msg)
      ∨ ∃ response, (handleIPPPost a env r).1 = HTTPResult.written 200 response := by
  by_cases h8 : 8 ≤ (readBytes r).length
  · right
    rw [handleIPPPost_dispatch a env r h0 hlim h8]
    split_ifs <;> exact ⟨_, rfl⟩
  · left
    rw [handleIPPPost_short a env r h0 hlim (by omega)]
    split_ifs <;> exact ⟨_, rfl⟩

/-- C16, as the code has it: `handleIPPPost` is not total. For a request whose
declared content length is -1 (unknown length, chunked transfer), and for every
negative length, the allocation `make([]byte, r.ContentLength)` panics: the
handler ends without answering HTTP 400 or HTTP 200, whatever the body. The
same allocation fails for a declared length above what `make` can allocate, and
the handler ends without an answer there too. These are the only requests the
handler leaves unanswered: when the declared length is not negative and the
buffer is allocated it answers HTTP 400 or HTTP 200, the count `n` of the slice
`body[:n]` is at most the length of the buffer, and the value of `dataStart` in
`parseIPPPrintRequest` is -1 or an index inside the body. -/
theorem handleIPPPost_panics_on_unknown_length (a : AirPrintServer) (env : Env) :
    (∀ (stream : List Byte) (readErr : Bool) (allocLimit : Nat),
        handleIPPPost a env ⟨-1, stream, readErr, allocLimit⟩ = (HTTPResult.panic, a))
      ∧ (∀ r : Request, (handleIPPPost a env r).1 = HTTPResult.panic
          ↔ r.ContentLength < 0 ∨ (r.allocLimit : Int) < r.ContentLength)
      ∧ (∀ r : Request, 0 ≤ r.ContentLength → r.ContentLength ≤ (r.allocLimit : Int) →
          (∃ msg, (handleIPPPost a env r).1 = HTTPResult.httpError 400 msg)
            ∨ ∃ response, (handleIPPPost a env r).1 = HTTPResult.written 200 response)
      ∧ (∀ (r : Request) (buf : List Byte), (bodyRead r buf).1 ≤ buf.length)
      ∧ ∀ body : List Byte,
          scanEndOfAttributes body body.length 8 = -1
            ∨ (8 < scanEndOfAttributes body body.length 8
              ∧ scanEndOfAttributes body body.length 8 < (body.length : Int)) := by
  refine ⟨?_, ?_, fun r h0 hlim => handleIPPPost_answers a env r h0 hlim, ?_, ?_⟩
  · intro stream readErr allocLimit
    unfold handleIPPPost
    rw [if_pos (Or.inl (show (-1 : Int) < 0 by decide))]
  · intro r
    constructor
    · intro hpanic
      by_contra hneg
      rcases handleIPPPost_answers a env r (by omega) (by omega) with ⟨msg, h⟩ | ⟨response, h⟩
      · rw [h] at hpanic; exact absurd hpanic (by simp)
      · rw [h] at hpanic; exact absurd hpanic (by simp)
    · intro hneg
      unfold handleIPPPost
      rw [if_pos hneg]
  · intro r buf
    simp only [bodyRead]
    exact Nat.min_le_right _ _
  · intro body
    exact scan_range body body.length 8

/-! ## Print-Job requests handled at the same time -/

/-- The three statements of one call, run without another call between them,
do what `buildPrintJobResponse` does. -/
theorem interleave_alone (a : AirPrintServer) (env : Env) (requestID : Nat)
    (requestBody : List Byte) :
    (interleave a [startPrintJobCall env requestBody] [0, 0, 0]).1
        = (buildPrintJobResponse a env requestID requestBody).2
      ∧ (interleave a [startPrintJobCall env requestBody] [0, 0, 0]).2.map (fun c => c.jobID)
        = [wrapInt (a.jobCounter + 1)] := by
  constructor
  · cases hdp : env.defaultPrinter <;>
      simp [interleave, nextStatement, startPrintJobCall, newPrintJob, buildPrintJobResponse, hdp]
  · simp [interleave, nextStatement, startPrintJobCall]

/-- C15, as the code has it: job creation is not safe under concurrent
invocation. The three statements of `buildPrintJobResponse` on the shared
server - `a.jobCounter++`, `jobID := a.jobCounter`, `a.jobs[jobID] = job` - are
not guarded by any exclusion mechanism, so the statements of two calls can
alternate. On a new server, when two Print-Job requests both increment the
counter before either reads it, both take the id 2: the ids are [2, 2], the id
1 is skipped and the registry holds one entry, under the key 2, the second job
having replaced the first; on every server the two calls of this schedule take
the same id. When the calls run one after the other the ids are [1, 2] and the
registry holds both jobs; a call that runs alone is `buildPrintJobResponse`. -/
theorem concurrent_print_jobs_share_an_id :
    ((interleave NewAirPrintServer
          [startPrintJobCall ⟨[], none, 0⟩ [1, 1, 0, 2, 0, 0, 0, 1, 3, 65],
           startPrintJobCall ⟨[], none, 0⟩ [1, 1, 0, 2, 0, 0, 0, 2, 3, 66]]
          [0, 1, 0, 1, 0, 1]).2.map (fun c => (c.done, c.jobID)) = [(3, 2), (3, 2)])
      ∧ jobIDs (interleave NewAirPrintServer
          [startPrintJobCall ⟨[], none, 0⟩ [1, 1, 0, 2, 0, 0, 0, 1, 3, 65],
           startPrintJobCall ⟨[], none, 0⟩ [1, 1, 0, 2, 0, 0, 0, 2, 3, 66]]
          [0, 1, 0, 1, 0, 1]).1 = [2]
      ∧ (interleave NewAirPrintServer
          [startPrintJobCall ⟨[], none, 0⟩ [1, 1, 0, 2, 0, 0, 0, 1, 3, 65],
           startPrintJobCall ⟨[], none, 0⟩ [1, 1, 0, 2, 0, 0, 0, 2, 3, 66]]
          [0, 1, 0, 1, 0, 1]).1.jobCounter = 2
      ∧ ((interleave NewAirPrintServer
          [startPrintJobCall ⟨[], none, 0⟩ [1, 1, 0, 2, 0, 0, 0, 1, 3, 65],
           startPrintJobCall ⟨[], none, 0⟩ [1, 1, 0, 2, 0, 0, 0, 2, 3, 66]]
          [0, 0, 0, 1, 1, 1]).2.map (fun c => (c.done, c.jobID)) = [(3, 1), (3, 2)])
      ∧ jobIDs (interleave NewAirPrintServer
          [startPrintJobCall ⟨[], none, 0⟩ [1, 1, 0, 2, 0, 0, 0, 1, 3, 65],
           startPrintJobCall ⟨[], none, 0⟩ [1, 1, 0, 2, 0, 0, 0, 2, 3, 66]]
          [0, 0, 0, 1, 1, 1]).1 = [2, 1]
      ∧ (∀ (a : AirPrintServer) (env₁ env₂ : Env) (body₁ body₂ : List Byte),
          (interleave a [startPrintJobCall env₁ body₁, startPrintJobCall env₂ body₂]
              [0, 1, 0, 1, 0, 1]).2.map (fun c => c.jobID)
            = [wrapInt (wrapInt (a.jobCounter + 1) + 1), wrapInt (wrapInt (a.jobCounter + 1) + 1)])
      ∧ ∀ (a : AirPrintServer) (env : Env) (requestID : Nat) (requestBody : List Byte),
          (interleave a [startPrintJobCall env requestBody] [0, 0, 0]).1
            = (buildPrintJobResponse a env requestID requestBody).2 := by
  refine ⟨by decide, by decide, by decide, by decide, by decide, ?_, ?_⟩
  · intro a env₁ env₂ body₁ body₂
    simp [interleave, nextStatement, startPrintJobCall]
  · intro a env requestID requestBody
    exact (interleave_alone a env requestID requestBody).1

end AirPrint
